import Mathlib

/-!
Verification of the host-to-guest timezone resolution and offset-computation
engine found in `android/android-emu/android/utils/timezone.cpp`.

The development is a shallow embedding: C strings become `List Char`,
`struct tm` becomes the `Tm` structure, the mutable `TimeZone` object becomes
the `TZState` record threaded explicitly, machine integers become `Int`,
external processes and the registry are modelled as explicit environment
records, and C++ exceptions (thrown by `std::stoi`) are modelled with
`Except Unit`.
-/

/-! ## Character-list utilities (C string primitives) -/

/-- Model of C `strchr(s, c)` restricted to what the validator needs: the
suffix of `s` strictly after the first occurrence of `c`, or `none` when `c`
does not occur (`strchr` returning `NULL`). -/
def afterChar (c : Char) : List Char → Option (List Char)
  | [] => none
  | x :: xs => if x = c then some xs else afterChar c xs

/-- Splitting a character list on a separator character; used only by the
spec-side validity predicate for claim C2. -/
def splitSlash : List Char → List (List Char)
  | [] => [[]]
  | x :: xs =>
    let r := splitSlash xs
    if x = '/' then [] :: r
    else match r with
      | [] => [[x]]
      | s :: rest => (x :: s) :: rest

/-! ## Zone-Name Validator (`check_timezone_is_zoneinfo`, timezone.cpp:57) -/

/-- Embedding of `check_timezone_is_zoneinfo`.  `slash1[1] == 0` becomes
"the suffix after the first slash is empty"; `strchr(slash2+1, '/') != NULL`
becomes "the suffix after the second slash contains another slash".  The
`tz == NULL` guard has no counterpart: the model quantifies over actual
strings. -/
def check_timezone_is_zoneinfo (tz : List Char) : Bool :=
  let slash1 := afterChar '/' tz
  if slash1 = none then false
  else
    let rest1 := slash1.getD []
    if rest1 = [] then false
    else
      let slash2 := afterChar '/' rest1
      if slash2 = none then true
      else
        let rest2 := slash2.getD []
        if rest2 = [] then false
        else if (afterChar '/' rest2).isSome then false
        else true

/-- Spec-side validity predicate for claim C2, written from the spec's words:
`s` matches `Area/Location` or `Area/Location/SubLocation` with every segment
non-empty, i.e. splitting on `/` yields exactly two or three segments, all
non-empty. -/
def spec_zoneinfo_valid (tz : List Char) : Bool :=
  let segs := splitSlash tz
  (segs.length = 2 || segs.length = 3) && segs.all (fun s => !s.isEmpty)

/-- Embedding of `bufprint_zoneinfo_timezone` (timezone.cpp:79).  The host
discoverer `get_zoneinfo_timezone()` result is the parameter: `none` models a
`NULL` return.  Buffer truncation by `bufprint` is not modelled (the output
buffer is assumed large enough, as in every call site). -/
def bufprint_zoneinfo_timezone (tz : Option (List Char)) : List Char :=
  match tz with
  | none => "Unknown/Unknown".toList
  | some s =>
    if check_timezone_is_zoneinfo s then s else "Unknown/Unknown".toList

/-! ## Civil instants (`struct tm`) and the pure offset-engine helpers -/

/-- The fields of C `struct tm` that the engine reads and writes.  `tm_year`
is years since 1900 and `tm_mon` is zero-based, exactly as in C. -/
structure Tm where
  tm_sec : Int
  tm_min : Int
  tm_hour : Int
  tm_mday : Int
  tm_mon : Int
  tm_year : Int
deriving DecidableEq, Repr

/-- Embedding of `TimeZone::utcCompare` (timezone.cpp:1062): nested
comparisons returning 1, 0 or -1. -/
def utcCompare (utc1 utc2 : Tm) : Int :=
  if utc1.tm_year > utc2.tm_year then 1
  else if utc1.tm_year < utc2.tm_year then -1
  else if utc1.tm_mon > utc2.tm_mon then 1
  else if utc1.tm_mon < utc2.tm_mon then -1
  else if utc1.tm_mday > utc2.tm_mday then 1
  else if utc1.tm_mday < utc2.tm_mday then -1
  else if utc1.tm_hour > utc2.tm_hour then 1
  else if utc1.tm_hour < utc2.tm_hour then -1
  else if utc1.tm_min > utc2.tm_min then 1
  else if utc1.tm_min < utc2.tm_min then -1
  else if utc1.tm_sec > utc2.tm_sec then 1
  else if utc1.tm_sec < utc2.tm_sec then -1
  else 0

/-- Spec-side strict lexicographic order on
(year, month, day, hour, minute, second), used to state claim C4. -/
def lexLtTm (a b : Tm) : Prop :=
  a.tm_year < b.tm_year ∨ (a.tm_year = b.tm_year ∧
    (a.tm_mon < b.tm_mon ∨ (a.tm_mon = b.tm_mon ∧
      (a.tm_mday < b.tm_mday ∨ (a.tm_mday = b.tm_mday ∧
        (a.tm_hour < b.tm_hour ∨ (a.tm_hour = b.tm_hour ∧
          (a.tm_min < b.tm_min ∨ (a.tm_min = b.tm_min ∧
            a.tm_sec < b.tm_sec)))))))))

instance (a b : Tm) : Decidable (lexLtTm a b) := by
  unfold lexLtTm; infer_instance

/-- `kSecondsPerDay = 60 * 60 * 24` (timezone.cpp:954). -/
def kSecondsPerDay : Int := 60 * 60 * 24

/-- Embedding of `TimeZone::diffTime` (timezone.cpp:1123). -/
def diffTime (e b : Tm) : Int :=
  let endInSecs := e.tm_sec + 60 * (e.tm_min + 60 * e.tm_hour)
  let beginningInSecs := b.tm_sec + 60 * (b.tm_min + 60 * b.tm_hour)
  if e.tm_year > b.tm_year then
    (endInSecs + kSecondsPerDay) - beginningInSecs
  else if e.tm_year < b.tm_year then
    endInSecs - (beginningInSecs + kSecondsPerDay)
  else if e.tm_mon > b.tm_mon then
    (endInSecs + kSecondsPerDay) - beginningInSecs
  else if e.tm_mon < b.tm_mon then
    endInSecs - (beginningInSecs + kSecondsPerDay)
  else
    (endInSecs + kSecondsPerDay * e.tm_mday) -
      (beginningInSecs + kSecondsPerDay * b.tm_mday)

/-! ## The stateful engine (`class TimeZone`, timezone.cpp:926) -/

/-- The mutable fields of the `TimeZone` object.  The C `int`
`mAndroidTimeZoneInit`, only ever assigned 0 or 1 and tested for truth, is
modelled as `Bool`. -/
structure TZState where
  mStandardDateUtc : Tm
  mDaylightDateUtc : Tm
  mStandardOffset : Int
  mDaylightOffset : Int
  mCurrentYear : Int
  mAndroidTimeZoneInit : Bool
  mTimeZoneName : String
deriving DecidableEq, Repr

/-- Embedding of `TimeZone::getIsDaylightSavingTime` (timezone.cpp:1103).
The C code converts `timeNow` with host `gmtime`; here `utc` is that
converted civil instant. -/
def getIsDaylightSavingTime (st : TZState) (utc : Tm) : Int :=
  if st.mDaylightOffset = 0 then -1
  else if utcCompare utc st.mStandardDateUtc < 0 ∨
      utcCompare utc st.mDaylightDateUtc ≥ 0 then 0
  else 1

/-- Embedding of `TimeZone::getTimeZoneDiff` (timezone.cpp:1117). -/
def getTimeZoneDiff (st : TZState) (utc : Tm) : Int :=
  let isdst := getIsDaylightSavingTime st utc
  if isdst ≤ 0 then st.mStandardOffset
  else st.mStandardOffset + st.mDaylightOffset

/-! ## Reference civil-calendar timestamp (proleptic Gregorian)

Used only to state claim C8 ("true difference as UTC timestamps"). -/

/-- Gregorian leap-year predicate on the actual calendar year. -/
def isLeap (y : Int) : Bool :=
  decide ((y % 4 = 0 ∧ y % 100 ≠ 0) ∨ y % 400 = 0)

/-- Number of Gregorian leap years in `[0, y)` (affinely extended to negative
`y` by the same floor-division formula). -/
def leapsBefore (y : Int) : Int :=
  (y + 3) / 4 - (y + 99) / 100 + (y + 399) / 400

/-- Cumulative days before zero-based month `m` of a year (leap flag `l`). -/
def doyBefore (l : Bool) (m : Int) : Int :=
  let k : Int := if l then 1 else 0
  if m = 0 then 0
  else if m = 1 then 31
  else if m = 2 then 59 + k
  else if m = 3 then 90 + k
  else if m = 4 then 120 + k
  else if m = 5 then 151 + k
  else if m = 6 then 181 + k
  else if m = 7 then 212 + k
  else if m = 8 then 243 + k
  else if m = 9 then 273 + k
  else if m = 10 then 304 + k
  else 334 + k

/-- Length of zero-based month `m` of a year (leap flag `l`). -/
def daysInMonth (l : Bool) (m : Int) : Int :=
  if m = 0 then 31
  else if m = 1 then (if l then 29 else 28)
  else if m = 2 then 31
  else if m = 3 then 30
  else if m = 4 then 31
  else if m = 5 then 30
  else if m = 6 then 31
  else if m = 7 then 31
  else if m = 8 then 30
  else if m = 9 then 31
  else if m = 10 then 30
  else 31

/-- Day number of the civil date of `t` (proleptic Gregorian, counted from an
arbitrary fixed origin; only differences matter). -/
def toDays (t : Tm) : Int :=
  365 * (t.tm_year + 1900) + leapsBefore (t.tm_year + 1900) +
    doyBefore (isLeap (t.tm_year + 1900)) t.tm_mon + (t.tm_mday - 1)

/-- Seconds since midnight of the civil instant `t`. -/
def todSecs (t : Tm) : Int :=
  t.tm_sec + 60 * (t.tm_min + 60 * t.tm_hour)

/-- Reference UTC timestamp of a civil instant, in seconds. -/
def toSecs (t : Tm) : Int := 86400 * toDays t + todSecs t

/-- A well-formed `struct tm`: fields within their calendar ranges. -/
def ValidTm (t : Tm) : Prop :=
  0 ≤ t.tm_mon ∧ t.tm_mon ≤ 11 ∧
  1 ≤ t.tm_mday ∧ t.tm_mday ≤ daysInMonth (isLeap (t.tm_year + 1900)) t.tm_mon ∧
  0 ≤ t.tm_hour ∧ t.tm_hour ≤ 23 ∧
  0 ≤ t.tm_min ∧ t.tm_min ≤ 59 ∧
  0 ≤ t.tm_sec ∧ t.tm_sec ≤ 59

instance (t : Tm) : Decidable (ValidTm t) := by
  unfold ValidTm; infer_instance

/-! ## `std::stoi` and whitespace tokenization models -/

/-- Value of the leading run of decimal digits, or `none` when there is no
leading digit (the case in which `std::stoi` throws). -/
def leadingDigitsVal (l : List Char) : Option Nat :=
  let ds := l.takeWhile (fun c => c.isDigit)
  if ds.isEmpty then none
  else some (ds.foldl (fun acc c => acc * 10 + (c.toNat - 48)) 0)

/-- Model of `std::stoi`: skip leading whitespace, optional sign, then a
non-empty run of digits; `.error ()` models the `std::invalid_argument`
exception thrown when no digits are found.  (`std::out_of_range` cannot occur
in the model: `Int` is unbounded.) -/
def stoi (l : List Char) : Except Unit Int :=
  match l.dropWhile (fun c => c.isWhitespace) with
  | '+' :: r =>
    match leadingDigitsVal r with
    | some n => .ok (n : Int)
    | none => .error ()
  | '-' :: r =>
    match leadingDigitsVal r with
    | some n => .ok (-(n : Int))
    | none => .error ()
  | r =>
    match leadingDigitsVal r with
    | some n => .ok (n : Int)
    | none => .error ()

/-- One step of whitespace tokenization, folded from the right: running pair
of (current token, finished tokens). -/
def tokenizeStep (c : Char) (acc : List Char × List (List Char)) :
    List Char × List (List Char) :=
  if c.isWhitespace then
    if acc.1 = [] then ([], acc.2) else ([], acc.1 :: acc.2)
  else (c :: acc.1, acc.2)

/-- Model of `std::stringstream >> token` extraction: split a line into its
maximal whitespace-free tokens. -/
def tokenize (l : List Char) : List (List Char) :=
  let p := l.foldr tokenizeStep ([], [])
  if p.1 = [] then p.2 else p.1 :: p.2

/-! ## Transition-Rule Resolver, Unix strategies -/

/-- `kMonthName` (timezone.cpp:922). -/
def kMonthName : List (List Char) :=
  ["Jan".toList, "Feb".toList, "Mar".toList, "Apr".toList,
   "May".toList, "Jun".toList, "Jul".toList, "Aug".toList,
   "Sep".toList, "Oct".toList, "Nov".toList, "Dec".toList]

/-- Embedding of `TimeZone::parseZdumpDate` (timezone.cpp:1216).  Result
`.ok none` models `return -1` (the caller's `struct tm` is untouched:
the month check precedes every field write); `.ok (some d)` models `return 0`
with all six fields written; `.error ()` models a `std::stoi` exception
escaping the function. -/
def parseZdumpDate (tokens : List (List Char)) : Except Unit (Option Tm) :=
  if tokens.length ≥ 4 then
    match (List.range 12).find?
        (fun i => kMonthName.getD i [] = tokens.getD 0 []) with
    | none => .ok none
    | some monIdx => do
      let mday ← stoi (tokens.getD 1 [])
      let hour ← stoi ((tokens.getD 2 []).take 2)
      let min ← stoi (((tokens.getD 2 []).drop 3).take 2)
      let sec ← stoi (((tokens.getD 2 []).drop 6).take 2)
      let year ← stoi (tokens.getD 3 [])
      .ok (some ⟨sec, min, hour, mday, (monIdx : Int), year - 1900⟩)
  else .ok none

/-- Outcome of the external `zdump -v <zone> | grep <year>` invocation:
whether a temp file could be created, whether the command ran, its exit code,
and the lines captured in the output file. -/
structure ZdumpEnv where
  tempfileOk : Bool
  ran : Bool
  exitCode : Int
  lines : List (List Char)

/-- Outcome of the external `TZ=<zone> date +%z` invocation; `line` is the
first line of the captured output (empty when the file is empty). -/
structure DateEnv where
  tempfileOk : Bool
  ran : Bool
  exitCode : Int
  line : List Char

/-- The external world consumed by the Unix resolution path. -/
structure UnixEnv where
  zdump : ZdumpEnv
  date : DateEnv

/-- Embedding of `TimeZone::setAndroidTimeZoneUsingZdump`
(timezone.cpp:1241).  The `for (i = 1; i < 4; i += 2)` loop is unrolled into
its two iterations (i = 1 writes `mStandardDateUtc`, i = 3 writes
`mDaylightDateUtc`).  Note the partial state updates on the failure paths,
exactly as in the C++ (fields already assigned stay assigned). -/
def setAndroidTimeZoneUsingZdump (env : ZdumpEnv) (st : TZState) :
    Except Unit (Int × TZState) :=
  if ¬env.tempfileOk then .ok (-1, st)
  else if env.ran ∧ env.exitCode = 0 then
    let rules := env.lines
    if rules.length = 4 then
      let tokens1 := tokenize (rules.getD 1 [])
      match parseZdumpDate ((tokens1.drop 2).take 4) with
      | .error _ => .error ()
      | .ok none => .ok (-1, st)
      | .ok (some d1) =>
        let st1 := { st with mStandardDateUtc := d1 }
        match parseZdumpDate ((tokens1.drop 9).take 4) with
        | .error _ => .error ()
        | .ok none => .ok (-1, st1)
        | .ok (some localDate1) =>
          let utcOffsetDST := diffTime localDate1 st1.mStandardDateUtc
          let tokens3 := tokenize (rules.getD 3 [])
          match parseZdumpDate ((tokens3.drop 2).take 4) with
          | .error _ => .error ()
          | .ok none => .ok (-1, st1)
          | .ok (some d3) =>
            let st3 := { st1 with mDaylightDateUtc := d3 }
            match parseZdumpDate ((tokens3.drop 9).take 4) with
            | .error _ => .error ()
            | .ok none => .ok (-1, st3)
            | .ok (some localDate3) =>
              let utcOffsetStandard := diffTime localDate3 st3.mDaylightDateUtc
              .ok (0, { st3 with
                mStandardOffset := utcOffsetStandard,
                mDaylightOffset := utcOffsetDST - utcOffsetStandard })
    else .ok (-1, st)
  else .ok (-1, st)

/-- Embedding of `TimeZone::setAndroidTimeZoneUsingDate`
(timezone.cpp:1306).  `tzdiff[0]` on an empty `std::string` reads the
terminating null character, so the sign test compares the head (default
`'\x00'`) with `'+'`. -/
def setAndroidTimeZoneUsingDate (env : DateEnv) (st : TZState) :
    Except Unit (Int × TZState) :=
  if ¬env.tempfileOk then .ok (-1, st)
  else if env.ran ∧ env.exitCode = 0 then
    let tzdiff := env.line
    let sign : Int := if tzdiff.headD '\x00' = '+' then 1 else -1
    match stoi ((tzdiff.drop 1).take 2) with
    | .error _ => .error ()
    | .ok h =>
      match stoi ((tzdiff.drop 3).take 2) with
      | .error _ => .error ()
      | .ok m =>
        .ok (0, { st with
          mStandardOffset := sign * (60 * (h * 60 + m)),
          mDaylightOffset := 0 })
  else .ok (-1, st)

/-- Embedding of the Unix branch of `TimeZone::androidTimeZoneSet`
(timezone.cpp:1341), instrumented with a flag recording whether the
date-based fallback strategy was invoked (for claim C9).  The
`if (zdump() && date())` short-circuit runs `date` only when `zdump`
returned non-zero. -/
def androidTimeZoneSetUnixI (tzname : String) (env : UnixEnv)
    (st : TZState) : Except Unit (Int × TZState × Bool) :=
  let st0 := { st with mTimeZoneName := tzname, mAndroidTimeZoneInit := false }
  match setAndroidTimeZoneUsingZdump env.zdump st0 with
  | .error e => .error e
  | .ok (z, st1) =>
    if z ≠ 0 then
      match setAndroidTimeZoneUsingDate env.date st1 with
      | .error e => .error e
      | .ok (d, st2) =>
        if d ≠ 0 then .ok (-1, st2, true)
        else .ok (0, { st2 with mAndroidTimeZoneInit := true }, true)
    else .ok (0, { st1 with mAndroidTimeZoneInit := true }, false)

/-- The Unix `TimeZone::androidTimeZoneSet` without the instrumentation
flag. -/
def androidTimeZoneSetUnix (tzname : String) (env : UnixEnv)
    (st : TZState) : Except Unit (Int × TZState) :=
  (androidTimeZoneSetUnixI tzname env st).map (fun r => (r.1, r.2.1))

/-- Host OS time conversions consumed by the engine: `gmtime` and
`localtime` as functions from a `time_t` (seconds) to a civil instant. -/
structure Host where
  gmtime : Int → Tm
  localtime : Int → Tm

/-- Embedding of `TimeZone::androidTimeZoneOffset` (timezone.cpp:1023),
instrumented with a count of Transition-Rule Resolver
(`androidTimeZoneSet`) invocations (for claim C6). -/
def androidTimeZoneOffsetC (env : UnixEnv) (host : Host) (t : Int)
    (st : TZState) : Except Unit (Int × TZState × Nat) :=
  if st.mAndroidTimeZoneInit then
    let year := (host.gmtime t).tm_year + 1900
    if year ≠ st.mCurrentYear then
      let stY := { st with mCurrentYear := year }
      match androidTimeZoneSetUnix stY.mTimeZoneName env stY with
      | .error e => .error e
      | .ok (_, st') => .ok (getTimeZoneDiff st' (host.gmtime t), st', 1)
    else .ok (getTimeZoneDiff st (host.gmtime t), st, 0)
  else .ok (diffTime (host.localtime t) (host.gmtime t), st, 0)

/-- `TimeZone::androidTimeZoneOffset` without the instrumentation count. -/
def androidTimeZoneOffset (env : UnixEnv) (host : Host) (t : Int)
    (st : TZState) : Except Unit (Int × TZState) :=
  (androidTimeZoneOffsetC env host t st).map (fun r => (r.1, r.2.1))

/-! ## Transition-Rule Resolver, Windows strategy -/

/-- The fields of the Win32 `SYSTEMTIME` structure. -/
structure SystemTime where
  wYear : Int
  wMonth : Int
  wDayOfWeek : Int
  wDay : Int
  wHour : Int
  wMinute : Int
  wSecond : Int
  wMilliseconds : Int
deriving DecidableEq, Repr

/-- The fields of `REG_TZI_FORMAT` (timezone.cpp:1147) that
`androidTimeZoneSet` consumes after `parseTimeZoneInformationFromRegistry`
copies them into a `TIME_ZONE_INFORMATION`. -/
structure RegTzi where
  Bias : Int
  StandardBias : Int
  DaylightBias : Int
  StandardDate : SystemTime
  DaylightDate : SystemTime
deriving DecidableEq, Repr

/-- Embedding of `TimeZone::parseSystemTime` (timezone.cpp:1204). -/
def parseSystemTime (winTime : SystemTime) : Tm :=
  { tm_year := winTime.wYear - 1900
    tm_mon := winTime.wMonth - 1
    tm_mday := winTime.wDay
    tm_hour := winTime.wHour
    tm_min := winTime.wMinute
    tm_sec := winTime.wSecond }

/-- The registry as an environment: the outcome of
`parseTimeZoneInformationFromRegistry` for a Windows timezone name (`none`
models any of its failure paths: missing key, failed query, wrong value
type). -/
structure WinEnv where
  registry : String → Option RegTzi

/-- `_win32_timezones` (timezone.cpp:422): the bundled Windows-name to
zoneinfo-name table, in source order. -/
def win32Timezones : List (String × String) := [
  ("AUS Central Standard Time", "Australia/Darwin"),
  ("AUS Eastern Standard Time", "Australia/Sydney"),
  ("AUS Eastern Standard Time", "Australia/Melbourne"),
  ("Afghanistan Standard Time", "Asia/Kabul"),
  ("Alaskan Standard Time", "America/Anchorage"),
  ("Alaskan Standard Time", "America/Juneau"),
  ("Alaskan Standard Time", "America/Metlakatla"),
  ("Alaskan Standard Time", "America/Nome"),
  ("Alaskan Standard Time", "America/Sitka"),
  ("Alaskan Standard Time", "America/Yakutat"),
  ("Aleutian Standard Time", "America/Adak"),
  ("Altai Standard Time", "Asia/Barnaul"),
  ("Arab Standard Time", "Asia/Riyadh"),
  ("Arab Standard Time", "Asia/Bahrain"),
  ("Arab Standard Time", "Asia/Kuwait"),
  ("Arab Standard Time", "Asia/Qatar"),
  ("Arab Standard Time", "Asia/Aden"),
  ("Arabian Standard Time", "Asia/Dubai"),
  ("Arabian Standard Time", "Asia/Muscat"),
  ("Arabian Standard Time", "Etc/GMT-4"),
  ("Arabic Standard Time", "Asia/Baghdad"),
  ("Argentina Standard Time", "America/Buenos_Aires"),
  ("Argentina Standard Time", "America/Argentina/La_Rioja"),
  ("Argentina Standard Time", "America/Argentina/Rio_Gallegos"),
  ("Argentina Standard Time", "America/Argentina/Salta"),
  ("Argentina Standard Time", "America/Argentina/San_Juan"),
  ("Argentina Standard Time", "America/Argentina/San_Luis"),
  ("Argentina Standard Time", "America/Argentina/Tucuman"),
  ("Argentina Standard Time", "America/Argentina/Ushuaia"),
  ("Argentina Standard Time", "America/Catamarca"),
  ("Argentina Standard Time", "America/Cordoba"),
  ("Argentina Standard Time", "America/Jujuy"),
  ("Argentina Standard Time", "America/Mendoza"),
  ("Astrakhan Standard Time", "Europe/Astrakhan"),
  ("Astrakhan Standard Time", "Europe/Ulyanovsk"),
  ("Atlantic Standard Time", "America/Halifax"),
  ("Atlantic Standard Time", "Atlantic/Bermuda"),
  ("Atlantic Standard Time", "America/Glace_Bay"),
  ("Atlantic Standard Time", "America/Goose_Bay"),
  ("Atlantic Standard Time", "America/Moncton"),
  ("Atlantic Standard Time", "America/Thule"),
  ("Aus Central W. Standard Time", "Australia/Eucla"),
  ("Azerbaijan Standard Time", "Asia/Baku"),
  ("Azores Standard Time", "Atlantic/Azores"),
  ("Azores Standard Time", "America/Scoresbysund"),
  ("Bahia Standard Time", "America/Bahia"),
  ("Bangladesh Standard Time", "Asia/Dhaka"),
  ("Bangladesh Standard Time", "Asia/Thimphu"),
  ("Belarus Standard Time", "Europe/Minsk"),
  ("Bougainville Standard Time", "Pacific/Bougainville"),
  ("Canada Central Standard Time", "America/Regina"),
  ("Canada Central Standard Time", "America/Swift_Current"),
  ("Cape Verde Standard Time", "Atlantic/Cape_Verde"),
  ("Cape Verde Standard Time", "Etc/GMT+1"),
  ("Caucasus Standard Time", "Asia/Yerevan"),
  ("Cen. Australia Standard Time", "Australia/Adelaide"),
  ("Cen. Australia Standard Time", "Australia/Broken_Hill"),
  ("Central America Standard Time", "America/Guatemala"),
  ("Central America Standard Time", "America/Belize"),
  ("Central America Standard Time", "America/Costa_Rica"),
  ("Central America Standard Time", "Pacific/Galapagos"),
  ("Central America Standard Time", "America/Tegucigalpa"),
  ("Central America Standard Time", "America/Managua"),
  ("Central America Standard Time", "America/El_Salvador"),
  ("Central America Standard Time", "Etc/GMT+6"),
  ("Central Asia Standard Time", "Asia/Almaty"),
  ("Central Asia Standard Time", "Antarctica/Vostok"),
  ("Central Asia Standard Time", "Asia/Urumqi"),
  ("Central Asia Standard Time", "Indian/Chagos"),
  ("Central Asia Standard Time", "Asia/Bishkek"),
  ("Central Asia Standard Time", "Asia/Qyzylorda"),
  ("Central Asia Standard Time", "Etc/GMT-6"),
  ("Central Brazilian Standard Time", "America/Cuiaba"),
  ("Central Brazilian Standard Time", "America/Campo_Grande"),
  ("Central Europe Standard Time", "Europe/Budapest"),
  ("Central Europe Standard Time", "Europe/Tirane"),
  ("Central Europe Standard Time", "Europe/Prague"),
  ("Central Europe Standard Time", "Europe/Podgorica"),
  ("Central Europe Standard Time", "Europe/Belgrade"),
  ("Central Europe Standard Time", "Europe/Ljubljana"),
  ("Central Europe Standard Time", "Europe/Bratislava"),
  ("Central European Standard Time", "Europe/Warsaw"),
  ("Central European Standard Time", "Europe/Sarajevo"),
  ("Central European Standard Time", "Europe/Zagreb"),
  ("Central European Standard Time", "Europe/Skopje"),
  ("Central Pacific Standard Time", "Pacific/Guadalcanal"),
  ("Central Pacific Standard Time", "Antarctica/Macquarie"),
  ("Central Pacific Standard Time", "Pacific/Ponape"),
  ("Central Pacific Standard Time", "Pacific/Kosrae"),
  ("Central Pacific Standard Time", "Pacific/Noumea"),
  ("Central Pacific Standard Time", "Pacific/Efate"),
  ("Central Pacific Standard Time", "Etc/GMT-11"),
  ("Central Standard Time", "America/Chicago"),
  ("Central Standard Time", "America/Winnipeg"),
  ("Central Standard Time", "America/Rainy_River"),
  ("Central Standard Time", "America/Rankin_Inlet"),
  ("Central Standard Time", "America/Resolute"),
  ("Central Standard Time", "America/Matamoros"),
  ("Central Standard Time", "America/Indiana/Knox"),
  ("Central Standard Time", "America/Indiana/Tell_City"),
  ("Central Standard Time", "America/Menominee"),
  ("Central Standard Time", "America/North_Dakota/Beulah"),
  ("Central Standard Time", "America/North_Dakota/Center"),
  ("Central Standard Time", "America/North_Dakota/New_Salem"),
  ("Central Standard Time", "CST6CDT"),
  ("Central Standard Time (Mexico)", "America/Mexico_City"),
  ("Central Standard Time (Mexico)", "America/Bahia_Banderas"),
  ("Central Standard Time (Mexico)", "America/Merida"),
  ("Central Standard Time (Mexico)", "America/Monterrey"),
  ("Chatham Islands Standard Time", "Pacific/Chatham"),
  ("China Standard Time", "Asia/Shanghai"),
  ("China Standard Time", "Asia/Hong_Kong"),
  ("China Standard Time", "Asia/Macau"),
  ("Cuba Standard Time", "America/Havana"),
  ("Dateline Standard Time", "Etc/GMT+12"),
  ("E. Africa Standard Time", "Africa/Nairobi"),
  ("E. Africa Standard Time", "Antarctica/Syowa"),
  ("E. Africa Standard Time", "Africa/Djibouti"),
  ("E. Africa Standard Time", "Africa/Asmera"),
  ("E. Africa Standard Time", "Africa/Addis_Ababa"),
  ("E. Africa Standard Time", "Indian/Comoro"),
  ("E. Africa Standard Time", "Indian/Antananarivo"),
  ("E. Africa Standard Time", "Africa/Khartoum"),
  ("E. Africa Standard Time", "Africa/Mogadishu"),
  ("E. Africa Standard Time", "Africa/Juba"),
  ("E. Africa Standard Time", "Africa/Dar_es_Salaam"),
  ("E. Africa Standard Time", "Africa/Kampala"),
  ("E. Africa Standard Time", "Indian/Mayotte"),
  ("E. Africa Standard Time", "Etc/GMT-3"),
  ("E. Australia Standard Time", "Australia/Brisbane"),
  ("E. Australia Standard Time", "Australia/Lindeman"),
  ("E. Europe Standard Time", "Europe/Chisinau"),
  ("E. South America Standard Time", "America/Sao_Paulo"),
  ("Easter Island Standard Time", "Pacific/Easter"),
  ("Eastern Standard Time", "America/New_York"),
  ("Eastern Standard Time", "America/Nassau"),
  ("Eastern Standard Time", "America/Toronto"),
  ("Eastern Standard Time", "America/Iqaluit"),
  ("Eastern Standard Time", "America/Montreal"),
  ("Eastern Standard Time", "America/Nipigon"),
  ("Eastern Standard Time", "America/Pangnirtung"),
  ("Eastern Standard Time", "America/Thunder_Bay"),
  ("Eastern Standard Time", "America/Detroit"),
  ("Eastern Standard Time", "America/Indiana/Petersburg"),
  ("Eastern Standard Time", "America/Indiana/Vincennes"),
  ("Eastern Standard Time", "America/Indiana/Winamac"),
  ("Eastern Standard Time", "America/Kentucky/Monticello"),
  ("Eastern Standard Time", "America/Louisville"),
  ("Eastern Standard Time", "EST5EDT"),
  ("Eastern Standard Time (Mexico)", "America/Cancun"),
  ("Egypt Standard Time", "Africa/Cairo"),
  ("Ekaterinburg Standard Time", "Asia/Yekaterinburg"),
  ("FLE Standard Time", "Europe/Kiev"),
  ("FLE Standard Time", "Europe/Mariehamn"),
  ("FLE Standard Time", "Europe/Sofia"),
  ("FLE Standard Time", "Europe/Tallinn"),
  ("FLE Standard Time", "Europe/Helsinki"),
  ("FLE Standard Time", "Europe/Vilnius"),
  ("FLE Standard Time", "Europe/Riga"),
  ("FLE Standard Time", "Europe/Uzhgorod"),
  ("FLE Standard Time", "Europe/Zaporozhye"),
  ("Fiji Standard Time", "Pacific/Fiji"),
  ("GMT Standard Time", "Europe/London"),
  ("GMT Standard Time", "Atlantic/Canary"),
  ("GMT Standard Time", "Atlantic/Faeroe"),
  ("GMT Standard Time", "Europe/Guernsey"),
  ("GMT Standard Time", "Europe/Dublin"),
  ("GMT Standard Time", "Europe/Isle_of_Man"),
  ("GMT Standard Time", "Europe/Jersey"),
  ("GMT Standard Time", "Europe/Lisbon"),
  ("GMT Standard Time", "Atlantic/Madeira"),
  ("GTB Standard Time", "Europe/Bucharest"),
  ("GTB Standard Time", "Asia/Nicosia"),
  ("GTB Standard Time", "Europe/Athens"),
  ("Georgian Standard Time", "Asia/Tbilisi"),
  ("Greenland Standard Time", "America/Godthab"),
  ("Greenwich Standard Time", "Atlantic/Reykjavik"),
  ("Greenwich Standard Time", "Africa/Ouagadougou"),
  ("Greenwich Standard Time", "Africa/Abidjan"),
  ("Greenwich Standard Time", "Africa/Accra"),
  ("Greenwich Standard Time", "Africa/Banjul"),
  ("Greenwich Standard Time", "Africa/Conakry"),
  ("Greenwich Standard Time", "Africa/Bissau"),
  ("Greenwich Standard Time", "Africa/Monrovia"),
  ("Greenwich Standard Time", "Africa/Bamako"),
  ("Greenwich Standard Time", "Africa/Nouakchott"),
  ("Greenwich Standard Time", "Atlantic/St_Helena"),
  ("Greenwich Standard Time", "Africa/Freetown"),
  ("Greenwich Standard Time", "Africa/Dakar"),
  ("Greenwich Standard Time", "Africa/Sao_Tome"),
  ("Greenwich Standard Time", "Africa/Lome"),
  ("Haiti Standard Time", "America/Port-au-Prince"),
  ("Hawaiian Standard Time", "Pacific/Honolulu"),
  ("Hawaiian Standard Time", "Pacific/Rarotonga"),
  ("Hawaiian Standard Time", "Pacific/Tahiti"),
  ("Hawaiian Standard Time", "Pacific/Johnston"),
  ("Hawaiian Standard Time", "Etc/GMT+10"),
  ("India Standard Time", "Asia/Calcutta"),
  ("Iran Standard Time", "Asia/Tehran"),
  ("Israel Standard Time", "Asia/Jerusalem"),
  ("Jordan Standard Time", "Asia/Amman"),
  ("Kaliningrad Standard Time", "Europe/Kaliningrad"),
  ("Korea Standard Time", "Asia/Seoul"),
  ("Libya Standard Time", "Africa/Tripoli"),
  ("Line Islands Standard Time", "Pacific/Kiritimati"),
  ("Line Islands Standard Time", "Etc/GMT-14"),
  ("Lord Howe Standard Time", "Australia/Lord_Howe"),
  ("Magadan Standard Time", "Asia/Magadan"),
  ("Marquesas Standard Time", "Pacific/Marquesas"),
  ("Mauritius Standard Time", "Indian/Mauritius"),
  ("Mauritius Standard Time", "Indian/Reunion"),
  ("Mauritius Standard Time", "Indian/Mahe"),
  ("Middle East Standard Time", "Asia/Beirut"),
  ("Montevideo Standard Time", "America/Montevideo"),
  ("Morocco Standard Time", "Africa/Casablanca"),
  ("Morocco Standard Time", "Africa/El_Aaiun"),
  ("Mountain Standard Time", "America/Denver"),
  ("Mountain Standard Time", "America/Edmonton"),
  ("Mountain Standard Time", "America/Cambridge_Bay"),
  ("Mountain Standard Time", "America/Inuvik"),
  ("Mountain Standard Time", "America/Yellowknife"),
  ("Mountain Standard Time", "America/Ojinaga"),
  ("Mountain Standard Time", "America/Boise"),
  ("Mountain Standard Time", "MST7MDT"),
  ("Mountain Standard Time (Mexico)", "America/Chihuahua"),
  ("Mountain Standard Time (Mexico)", "America/Mazatlan"),
  ("Myanmar Standard Time", "Asia/Rangoon"),
  ("Myanmar Standard Time", "Indian/Cocos"),
  ("N. Central Asia Standard Time", "Asia/Novosibirsk"),
  ("N. Central Asia Standard Time", "Asia/Omsk"),
  ("Namibia Standard Time", "Africa/Windhoek"),
  ("Nepal Standard Time", "Asia/Katmandu"),
  ("New Zealand Standard Time", "Pacific/Auckland"),
  ("New Zealand Standard Time", "Antarctica/McMurdo"),
  ("Newfoundland Standard Time", "America/St_Johns"),
  ("Norfolk Standard Time", "Pacific/Norfolk"),
  ("North Asia East Standard Time", "Asia/Irkutsk"),
  ("North Asia Standard Time", "Asia/Krasnoyarsk"),
  ("North Asia Standard Time", "Asia/Novokuznetsk"),
  ("North Korea Standard Time", "Asia/Pyongyang"),
  ("Pacific SA Standard Time", "America/Santiago"),
  ("Pacific SA Standard Time", "Antarctica/Palmer"),
  ("Pacific Standard Time", "America/Los_Angeles"),
  ("Pacific Standard Time", "America/Vancouver"),
  ("Pacific Standard Time", "America/Dawson"),
  ("Pacific Standard Time", "America/Whitehorse"),
  ("Pacific Standard Time", "PST8PDT"),
  ("Pacific Standard Time (Mexico)", "America/Tijuana"),
  ("Pacific Standard Time (Mexico)", "America/Santa_Isabel"),
  ("Pakistan Standard Time", "Asia/Karachi"),
  ("Paraguay Standard Time", "America/Asuncion"),
  ("Romance Standard Time", "Europe/Paris"),
  ("Romance Standard Time", "Europe/Brussels"),
  ("Romance Standard Time", "Europe/Copenhagen"),
  ("Romance Standard Time", "Europe/Madrid"),
  ("Romance Standard Time", "Africa/Ceuta"),
  ("Russia Time Zone 10", "Asia/Srednekolymsk"),
  ("Russia Time Zone 11", "Asia/Kamchatka"),
  ("Russia Time Zone 11", "Asia/Anadyr"),
  ("Russia Time Zone 3", "Europe/Samara"),
  ("Russian Standard Time", "Europe/Moscow"),
  ("Russian Standard Time", "Europe/Kirov"),
  ("Russian Standard Time", "Europe/Simferopol"),
  ("Russian Standard Time", "Europe/Volgograd"),
  ("SA Eastern Standard Time", "America/Cayenne"),
  ("SA Eastern Standard Time", "Antarctica/Rothera"),
  ("SA Eastern Standard Time", "America/Fortaleza"),
  ("SA Eastern Standard Time", "America/Belem"),
  ("SA Eastern Standard Time", "America/Maceio"),
  ("SA Eastern Standard Time", "America/Recife"),
  ("SA Eastern Standard Time", "America/Santarem"),
  ("SA Eastern Standard Time", "Atlantic/Stanley"),
  ("SA Eastern Standard Time", "America/Paramaribo"),
  ("SA Eastern Standard Time", "Etc/GMT+3"),
  ("SA Pacific Standard Time", "America/Bogota"),
  ("SA Pacific Standard Time", "America/Rio_Branco"),
  ("SA Pacific Standard Time", "America/Eirunepe"),
  ("SA Pacific Standard Time", "America/Coral_Harbour"),
  ("SA Pacific Standard Time", "America/Guayaquil"),
  ("SA Pacific Standard Time", "America/Jamaica"),
  ("SA Pacific Standard Time", "America/Cayman"),
  ("SA Pacific Standard Time", "America/Panama"),
  ("SA Pacific Standard Time", "America/Lima"),
  ("SA Pacific Standard Time", "Etc/GMT+5"),
  ("SA Western Standard Time", "America/La_Paz"),
  ("SA Western Standard Time", "America/Antigua"),
  ("SA Western Standard Time", "America/Anguilla"),
  ("SA Western Standard Time", "America/Aruba"),
  ("SA Western Standard Time", "America/Barbados"),
  ("SA Western Standard Time", "America/St_Barthelemy"),
  ("SA Western Standard Time", "America/Kralendijk"),
  ("SA Western Standard Time", "America/Manaus"),
  ("SA Western Standard Time", "America/Boa_Vista"),
  ("SA Western Standard Time", "America/Porto_Velho"),
  ("SA Western Standard Time", "America/Blanc-Sablon"),
  ("SA Western Standard Time", "America/Curacao"),
  ("SA Western Standard Time", "America/Dominica"),
  ("SA Western Standard Time", "America/Santo_Domingo"),
  ("SA Western Standard Time", "America/Grenada"),
  ("SA Western Standard Time", "America/Guadeloupe"),
  ("SA Western Standard Time", "America/Guyana"),
  ("SA Western Standard Time", "America/St_Kitts"),
  ("SA Western Standard Time", "America/St_Lucia"),
  ("SA Western Standard Time", "America/Marigot"),
  ("SA Western Standard Time", "America/Martinique"),
  ("SA Western Standard Time", "America/Montserrat"),
  ("SA Western Standard Time", "America/Puerto_Rico"),
  ("SA Western Standard Time", "America/Lower_Princes"),
  ("SA Western Standard Time", "America/Port_of_Spain"),
  ("SA Western Standard Time", "America/St_Vincent"),
  ("SA Western Standard Time", "America/Tortola"),
  ("SA Western Standard Time", "America/St_Thomas"),
  ("SA Western Standard Time", "Etc/GMT+4"),
  ("SE Asia Standard Time", "Asia/Bangkok"),
  ("SE Asia Standard Time", "Antarctica/Davis"),
  ("SE Asia Standard Time", "Indian/Christmas"),
  ("SE Asia Standard Time", "Asia/Jakarta"),
  ("SE Asia Standard Time", "Asia/Pontianak"),
  ("SE Asia Standard Time", "Asia/Phnom_Penh"),
  ("SE Asia Standard Time", "Asia/Vientiane"),
  ("SE Asia Standard Time", "Asia/Saigon"),
  ("SE Asia Standard Time", "Etc/GMT-7"),
  ("Saint Pierre Standard Time", "America/Miquelon"),
  ("Sakhalin Standard Time", "Asia/Sakhalin"),
  ("Samoa Standard Time", "Pacific/Apia"),
  ("Singapore Standard Time", "Asia/Singapore"),
  ("Singapore Standard Time", "Asia/Brunei"),
  ("Singapore Standard Time", "Asia/Makassar"),
  ("Singapore Standard Time", "Asia/Kuala_Lumpur"),
  ("Singapore Standard Time", "Asia/Kuching"),
  ("Singapore Standard Time", "Asia/Manila"),
  ("Singapore Standard Time", "Etc/GMT-8"),
  ("South Africa Standard Time", "Africa/Johannesburg"),
  ("South Africa Standard Time", "Africa/Bujumbura"),
  ("South Africa Standard Time", "Africa/Gaborone"),
  ("South Africa Standard Time", "Africa/Lubumbashi"),
  ("South Africa Standard Time", "Africa/Maseru"),
  ("South Africa Standard Time", "Africa/Blantyre"),
  ("South Africa Standard Time", "Africa/Maputo"),
  ("South Africa Standard Time", "Africa/Kigali"),
  ("South Africa Standard Time", "Africa/Mbabane"),
  ("South Africa Standard Time", "Africa/Lusaka"),
  ("South Africa Standard Time", "Africa/Harare"),
  ("South Africa Standard Time", "Etc/GMT-2"),
  ("Sri Lanka Standard Time", "Asia/Colombo"),
  ("Syria Standard Time", "Asia/Damascus"),
  ("Taipei Standard Time", "Asia/Taipei"),
  ("Tasmania Standard Time", "Australia/Hobart"),
  ("Tasmania Standard Time", "Australia/Currie"),
  ("Tocantins Standard Time", "America/Araguaina"),
  ("Tokyo Standard Time", "Asia/Tokyo"),
  ("Tokyo Standard Time", "Asia/Jayapura"),
  ("Tokyo Standard Time", "Pacific/Palau"),
  ("Tokyo Standard Time", "Asia/Dili"),
  ("Tokyo Standard Time", "Etc/GMT-9"),
  ("Tomsk Standard Time", "Asia/Tomsk"),
  ("Tonga Standard Time", "Pacific/Tongatapu"),
  ("Tonga Standard Time", "Pacific/Enderbury"),
  ("Tonga Standard Time", "Pacific/Fakaofo"),
  ("Tonga Standard Time", "Etc/GMT-13"),
  ("Transbaikal Standard Time", "Asia/Chita"),
  ("Turkey Standard Time", "Europe/Istanbul"),
  ("Turks And Caicos Standard Time", "America/Grand_Turk"),
  ("US Eastern Standard Time", "America/Indianapolis"),
  ("US Eastern Standard Time", "America/Indiana/Marengo"),
  ("US Eastern Standard Time", "America/Indiana/Vevay"),
  ("US Mountain Standard Time", "America/Phoenix"),
  ("US Mountain Standard Time", "America/Dawson_Creek"),
  ("US Mountain Standard Time", "America/Creston"),
  ("US Mountain Standard Time", "America/Fort_Nelson"),
  ("US Mountain Standard Time", "America/Hermosillo"),
  ("US Mountain Standard Time", "Etc/GMT+7"),
  ("UTC", "Etc/GMT"),
  ("UTC", "America/Danmarkshavn"),
  ("UTC+12", "Etc/GMT-12"),
  ("UTC+12", "Pacific/Tarawa"),
  ("UTC+12", "Pacific/Majuro"),
  ("UTC+12", "Pacific/Kwajalein"),
  ("UTC+12", "Pacific/Nauru"),
  ("UTC+12", "Pacific/Funafuti"),
  ("UTC+12", "Pacific/Wake"),
  ("UTC+12", "Pacific/Wallis"),
  ("UTC-02", "Etc/GMT+2"),
  ("UTC-02", "America/Noronha"),
  ("UTC-02", "Atlantic/South_Georgia"),
  ("UTC-08", "Etc/GMT+8"),
  ("UTC-08", "Pacific/Pitcairn"),
  ("UTC-09", "Etc/GMT+9"),
  ("UTC-09", "Pacific/Gambier"),
  ("UTC-11", "Etc/GMT+11"),
  ("UTC-11", "Pacific/Pago_Pago"),
  ("UTC-11", "Pacific/Niue"),
  ("UTC-11", "Pacific/Midway"),
  ("Ulaanbaatar Standard Time", "Asia/Ulaanbaatar"),
  ("Ulaanbaatar Standard Time", "Asia/Choibalsan"),
  ("Venezuela Standard Time", "America/Caracas"),
  ("Vladivostok Standard Time", "Asia/Vladivostok"),
  ("Vladivostok Standard Time", "Asia/Ust-Nera"),
  ("W. Australia Standard Time", "Australia/Perth"),
  ("W. Australia Standard Time", "Antarctica/Casey"),
  ("W. Central Africa Standard Time", "Africa/Lagos"),
  ("W. Central Africa Standard Time", "Africa/Luanda"),
  ("W. Central Africa Standard Time", "Africa/Porto-Novo"),
  ("W. Central Africa Standard Time", "Africa/Kinshasa"),
  ("W. Central Africa Standard Time", "Africa/Bangui"),
  ("W. Central Africa Standard Time", "Africa/Brazzaville"),
  ("W. Central Africa Standard Time", "Africa/Douala"),
  ("W. Central Africa Standard Time", "Africa/Algiers"),
  ("W. Central Africa Standard Time", "Africa/Libreville"),
  ("W. Central Africa Standard Time", "Africa/Malabo"),
  ("W. Central Africa Standard Time", "Africa/Niamey"),
  ("W. Central Africa Standard Time", "Africa/Ndjamena"),
  ("W. Central Africa Standard Time", "Africa/Tunis"),
  ("W. Central Africa Standard Time", "Etc/GMT-1"),
  ("W. Europe Standard Time", "Europe/Berlin"),
  ("W. Europe Standard Time", "Europe/Andorra"),
  ("W. Europe Standard Time", "Europe/Vienna"),
  ("W. Europe Standard Time", "Europe/Zurich"),
  ("W. Europe Standard Time", "Europe/Busingen"),
  ("W. Europe Standard Time", "Europe/Gibraltar"),
  ("W. Europe Standard Time", "Europe/Rome"),
  ("W. Europe Standard Time", "Europe/Vaduz"),
  ("W. Europe Standard Time", "Europe/Luxembourg"),
  ("W. Europe Standard Time", "Europe/Monaco"),
  ("W. Europe Standard Time", "Europe/Malta"),
  ("W. Europe Standard Time", "Europe/Amsterdam"),
  ("W. Europe Standard Time", "Europe/Oslo"),
  ("W. Europe Standard Time", "Europe/Stockholm"),
  ("W. Europe Standard Time", "Arctic/Longyearbyen"),
  ("W. Europe Standard Time", "Europe/San_Marino"),
  ("W. Europe Standard Time", "Europe/Vatican"),
  ("W. Mongolia Standard Time", "Asia/Hovd"),
  ("West Asia Standard Time", "Asia/Tashkent"),
  ("West Asia Standard Time", "Antarctica/Mawson"),
  ("West Asia Standard Time", "Asia/Oral"),
  ("West Asia Standard Time", "Asia/Aqtau"),
  ("West Asia Standard Time", "Asia/Aqtobe"),
  ("West Asia Standard Time", "Indian/Maldives"),
  ("West Asia Standard Time", "Indian/Kerguelen"),
  ("West Asia Standard Time", "Asia/Dushanbe"),
  ("West Asia Standard Time", "Asia/Ashgabat"),
  ("West Asia Standard Time", "Asia/Samarkand"),
  ("West Asia Standard Time", "Etc/GMT-5"),
  ("West Bank Standard Time", "Asia/Hebron"),
  ("West Bank Standard Time", "Asia/Gaza"),
  ("West Pacific Standard Time", "Pacific/Port_Moresby"),
  ("West Pacific Standard Time", "Antarctica/DumontDUrville"),
  ("West Pacific Standard Time", "Pacific/Truk"),
  ("West Pacific Standard Time", "Pacific/Guam"),
  ("West Pacific Standard Time", "Pacific/Saipan"),
  ("West Pacific Standard Time", "Etc/GMT-10"),
  ("Yakutsk Standard Time", "Asia/Yakutsk"),
  ("Yakutsk Standard Time", "Asia/Khandyga")]

/-- Embedding of the Windows branch of `TimeZone::androidTimeZoneSet`
(timezone.cpp:1341-1370): reverse-lookup the Windows name whose
`zoneinfo_name` equals `tzname` (first matching row), query the registry,
convert biases, and — when the daylight bias is non-zero — run the two
`parseSystemTime` calls exactly as written in the source: both target
`mStandardDateUtc` (the second assignment overwrites the first, and
`mDaylightDateUtc` is never written). -/
def androidTimeZoneSetWin (tzname : String) (env : WinEnv)
    (st : TZState) : Int × TZState :=
  let st0 := { st with mTimeZoneName := tzname, mAndroidTimeZoneInit := false }
  match win32Timezones.find? (fun p => p.2 == tzname) with
  | none => (-1, st0)
  | some row =>
    match env.registry row.1 with
    | none => (-1, st0)
    | some tzi =>
      let st1 := { st0 with
        mStandardOffset := -tzi.StandardBias * 60,
        mDaylightOffset := -tzi.DaylightBias * 60 }
      let st2 :=
        if st1.mDaylightOffset ≠ (0 : Int) then
          let stA := { st1 with mStandardDateUtc := parseSystemTime tzi.StandardDate }
          { stA with mStandardDateUtc := parseSystemTime tzi.DaylightDate }
        else st1
      (0, { st2 with mAndroidTimeZoneInit := true })

/-! ## Byte-compare step of the symlink/byte-scan discoverer -/

/-- The byte-by-byte loop of `compare_timezone_to_localtime`
(timezone.cpp:197-216): compares paired bytes, stopping at the first
mismatch; returns whether the whole prefix matched together with the number
of loop iterations executed (each iteration reads one byte from each file).
It is only ever reached with lists of equal length. -/
def byteCompareLoop : List Int → List Int → Bool × Nat
  | a :: as, b :: bs =>
    if a = b then
      let r := byteCompareLoop as bs
      (r.1, r.2 + 1)
    else (false, 1)
  | _, _ => (true, 0)

/-- Embedding of `compare_timezone_to_localtime` (timezone.cpp:167) over the
contents of the reference (`/etc/localtime`) file and the candidate file;
file sizes are the content lengths (`stat` and `open` are assumed to
succeed; any of their failure paths returns "no match" without reading).
Returns the match result and the number of byte-compare iterations run. -/
def compare_timezone_to_localtime (localtime cand : List Int) : Bool × Nat :=
  if cand.length ≠ localtime.length then (false, 0)
  else byteCompareLoop localtime cand

/-! ## Process-wide entry point `timezone_set` -/

/-- The file-scope globals holding the discovered/announced zone name
(timezone.cpp:53-55).  `android_timezone` is `none` when the pointer is
`NULL` and otherwise carries the pointed-to string. -/
structure Globals where
  android_timezone_init : Bool
  android_timezone0 : List Char
  android_timezone : Option (List Char)
deriving DecidableEq, Repr

/-- Embedding of `timezone_set` (timezone.cpp:1386) over the Unix engine:
clear the discovery-cache flag, validate, length-check against the
256-byte buffer, store the name, then delegate to
`TimeZone::androidTimeZoneSet`. -/
def timezone_set (tzname : String) (env : UnixEnv) (g : Globals)
    (st : TZState) : Except Unit (Int × Globals × TZState) :=
  let g0 := { g with android_timezone_init := false }
  if ¬check_timezone_is_zoneinfo tzname.toList then .ok (-1, g0, st)
  else if tzname.toList.length > 255 then .ok (-1, g0, st)
  else
    let g1 := { g0 with
      android_timezone0 := tzname.toList,
      android_timezone := some tzname.toList }
    match androidTimeZoneSetUnix tzname env st with
    | .error e => .error e
    | .ok (r, st') =>
      if r ≠ 0 then .ok (-1, g1, st')
      else .ok (0, { g1 with android_timezone_init := true }, st')

/-- The amended characterization of `check_timezone_is_zoneinfo`: there is a
first slash whose tail `b` is non-empty, and either `b` has no further slash,
or `b` splits at its own first slash into `c ++ / :: d` with `d` non-empty
and slash-free.  (Unlike the claim, the segment before the first slash and
the middle segment of a three-part name may be empty.) -/
def AmendedZoneName (tz : List Char) : Prop :=
  ∃ a b, tz = a ++ '/' :: b ∧ '/' ∉ a ∧ b ≠ [] ∧
    ('/' ∉ b ∨ ∃ c d, b = c ++ '/' :: d ∧ '/' ∉ c ∧ d ≠ [] ∧ '/' ∉ d)

/-! ## Concrete fixtures used by witnesses and counterexamples -/

/-- 2024-07-01T00:00:00 as a `struct tm`. -/
def tmJul2024 : Tm := ⟨0, 0, 0, 1, 6, 124⟩

/-- 2000-01-01T00:00:00 as a `struct tm`. -/
def tmEpoch : Tm := ⟨0, 0, 0, 1, 0, 100⟩

/-- A host whose `gmtime` and `localtime` agree (offset 0) and always answer
mid-2024. -/
def hostFix : Host := ⟨fun _ => tmJul2024, fun _ => tmJul2024⟩

/-- External world in which both resolution strategies fail (no temp file
can be created, commands do not run). -/
def envFailBoth : UnixEnv := ⟨⟨false, false, 0, []⟩, ⟨false, false, 0, []⟩⟩

/-- A resolved engine: rule for 2023, standard offset 100 s, no daylight
saving. -/
def stC1 : TZState :=
  ⟨tmEpoch, tmEpoch, 100, 0, 2023, true, "America/New_York"⟩

/-- Discovery-cache globals holding a previously announced zone. -/
def gFix : Globals :=
  ⟨true, "America/New_York".toList, some "America/New_York".toList⟩

/-- `stC1` after a failed re-resolution for 2024. -/
def stAfterFail : TZState :=
  { stC1 with mCurrentYear := 2024, mAndroidTimeZoneInit := false }

/-- A successful `date +%z` run printing `+0530`. -/
def envDateOk : DateEnv := ⟨true, true, 0, "+0530".toList⟩

/-- A captured zdump output with four lines whose second line has the
expected overall shape and a recognized month name, but a non-numeric day
token (`xx`) where `std::stoi` expects digits. -/
def envZdumpBadToken : ZdumpEnv :=
  ⟨true, true, 0,
    ["x".toList,
     "America/New_York Sun Mar xx 07:00:00 2016 UT = Sun Mar 13 03:00:00 2016 EDT".toList,
     "x".toList,
     "America/New_York Sun Nov 6 06:00:00 2016 UT = Sun Nov 6 01:00:00 2016 EST".toList]⟩

/-- A captured zdump output with four lines whose second line has six tokens
but an unrecognized month name in the UTC date position. -/
def envZdumpBadMonth : ZdumpEnv :=
  ⟨true, true, 0,
    ["a".toList, "a b c d e f".toList, "a".toList, "a b c d e f".toList]⟩

/-- Registry standard-transition descriptor: 2016-11-06T02:00. -/
def sysTimeNov2016 : SystemTime := ⟨2016, 11, 0, 6, 2, 0, 0, 0⟩

/-- Registry daylight-transition descriptor: 2016-03-13T07:00. -/
def sysTimeMar2016 : SystemTime := ⟨2016, 3, 0, 13, 7, 0, 0, 0⟩

/-- An Eastern-style registry record with non-zero daylight bias and two
distinct transition descriptors. -/
def regEastern : RegTzi := ⟨300, 0, -60, sysTimeNov2016, sysTimeMar2016⟩

/-- A registry containing exactly the Eastern record. -/
def winEnvFix : WinEnv :=
  ⟨fun n => if n = "Eastern Standard Time" then some regEastern else none⟩

/-- 2024-01-01T00:00:30 as a `struct tm`. -/
def tmC8e : Tm := ⟨30, 0, 0, 1, 0, 124⟩

/-- 2023-12-31T23:59:50 as a `struct tm`. -/
def tmC8b : Tm := ⟨50, 59, 23, 31, 11, 123⟩

/-! ## Helper lemmas -/

theorem afterChar_cons_self (c : Char) (xs : List Char) :
    afterChar c (c :: xs) = some xs := by
  simp [afterChar]

theorem afterChar_cons_ne (c x : Char) (xs : List Char) (h : ¬ x = c) :
    afterChar c (x :: xs) = afterChar c xs := by
  simp [afterChar, h]

theorem afterChar_eq_none (c : Char) (l : List Char) :
    afterChar c l = none ↔ c ∉ l := by
  induction l with
  | nil => simp [afterChar]
  | cons x xs ih =>
    by_cases hx : x = c
    · subst hx
      rw [afterChar_cons_self]
      simp
    · have hcx : ¬(c = x) := fun h => hx h.symm
      rw [afterChar_cons_ne c x xs hx]
      simp [ih, List.mem_cons, hcx]

theorem afterChar_eq_some (c : Char) (l r : List Char) :
    afterChar c l = some r ↔ ∃ p, l = p ++ c :: r ∧ c ∉ p := by
  induction l with
  | nil =>
    simp [afterChar]
  | cons x xs ih =>
    by_cases hx : x = c
    · subst hx
      rw [afterChar_cons_self]
      simp only [Option.some.injEq]
      constructor
      · rintro rfl
        exact ⟨[], rfl, by simp⟩
      · rintro ⟨p, hp, hnp⟩
        cases p with
        | nil => simpa using hp
        | cons q ps =>
          have hxq : x = q := by simpa using congrArg (fun t => t.head?) hp
          exact absurd (hxq ▸ List.mem_cons_self q ps) hnp
    · have hcx : ¬(c = x) := fun h => hx h.symm
      rw [afterChar_cons_ne c x xs hx, ih]
      constructor
      · rintro ⟨p, hp, hnp⟩
        exact ⟨x :: p, by simp [hp], by simp [hcx, hnp]⟩
      · rintro ⟨p, hp, hnp⟩
        cases p with
        | nil =>
          exfalso
          have : x = c := by simpa using congrArg (fun t => t.head?) hp
          exact hx this
        | cons q ps =>
          have hq : x = q ∧ xs = ps ++ c :: r := by simpa using hp
          exact ⟨ps, hq.2, fun hm => hnp (List.mem_cons_of_mem q hm)⟩

theorem byteCompareLoop_fst (l c : List Int) (h : l.length = c.length) :
    (byteCompareLoop l c).1 = true ↔ l = c := by
  induction l generalizing c with
  | nil =>
    cases c with
    | nil => simp [byteCompareLoop]
    | cons b bs => simp at h
  | cons a as ih =>
    cases c with
    | nil => simp at h
    | cons b bs =>
      by_cases hab : a = b
      · subst hab
        rw [show byteCompareLoop (a :: as) (a :: bs) =
          ((byteCompareLoop as bs).1, (byteCompareLoop as bs).2 + 1) from by
            simp [byteCompareLoop]]
        rw [show (((byteCompareLoop as bs).1, (byteCompareLoop as bs).2 + 1)).1
          = (byteCompareLoop as bs).1 from rfl]
        rw [ih bs (by simpa using h)]
        simp
      · simp [byteCompareLoop, hab]

/-! ## Claim C7 -/

/-- C7: the byte-compare step `compare_timezone_to_localtime` reports a match
if and only if the candidate file has the same size as the reference file and
the two contents are byte-for-byte identical; when the sizes differ it
rejects having read zero content bytes. -/
theorem compare_matches_iff_identical (l c : List Int) :
    ((compare_timezone_to_localtime l c).1 = true ↔
      (c.length = l.length ∧ c = l)) ∧
    (c.length ≠ l.length → compare_timezone_to_localtime l c = (false, 0)) := by
  constructor
  · by_cases hlen : c.length = l.length
    · unfold compare_timezone_to_localtime
      rw [if_neg (by simpa using hlen)]
      rw [byteCompareLoop_fst l c hlen.symm]
      constructor
      · intro h; exact ⟨hlen, h.symm⟩
      · intro h; exact h.2.symm
    · unfold compare_timezone_to_localtime
      rw [if_pos hlen]
      simp only [Bool.false_eq_true, false_iff]
      intro h; exact hlen h.1
  · intro hlen
    unfold compare_timezone_to_localtime
    rw [if_pos hlen]

/-- Witness for C7 at concrete inputs: equal contents match. -/
theorem compare_matches_iff_identical_witness :
    (compare_timezone_to_localtime [7, 8, 9] [7, 8, 9]).1 = true :=
  (compare_matches_iff_identical [7, 8, 9] [7, 8, 9]).1.mpr ⟨rfl, rfl⟩

/-! ## Claim C10 -/

/-- C10: whatever the host discoverer produced (`none`, an invalid name, or a
valid name), the string written by `bufprint_zoneinfo_timezone` always
satisfies the zone-name validator; in the failure cases it is the literal
`Unknown/Unknown`, which itself validates. -/
theorem bufprint_always_valid (tz : Option (List Char)) :
    check_timezone_is_zoneinfo (bufprint_zoneinfo_timezone tz) = true := by
  cases tz with
  | none => decide
  | some s =>
    cases hs : check_timezone_is_zoneinfo s with
    | false =>
      have hb : bufprint_zoneinfo_timezone (some s) = "Unknown/Unknown".toList := by
        simp [bufprint_zoneinfo_timezone, hs]
      rw [hb]; decide
    | true =>
      have hb : bufprint_zoneinfo_timezone (some s) = s := by
        simp [bufprint_zoneinfo_timezone, hs]
      rw [hb]; exact hs

/-! ## Claim C2 -/

/-- Counterexample to C2 as stated: the code accepts `"/a"`, whose first
slash is at position 0 (empty `Area` segment), while the claimed
`Area/Location` characterization rejects it. -/
theorem check_timezone_claim_counterexample :
    check_timezone_is_zoneinfo "/a".toList = true ∧
    spec_zoneinfo_valid "/a".toList = false := by
  constructor <;> decide

/-- C2 (amended): `check_timezone_is_zoneinfo` accepts exactly the strings
with a first slash not immediately followed by end-of-string such that a
second slash, if present, is neither immediately followed by end-of-string
nor followed by a third slash; the claimed "first slash not at position 0"
and "every segment non-empty" restrictions are not enforced by the code. -/
theorem check_timezone_amended (tz : List Char) :
    check_timezone_is_zoneinfo tz = true ↔ AmendedZoneName tz := by
  unfold AmendedZoneName
  cases h1 : afterChar '/' tz with
  | none =>
    have hc : check_timezone_is_zoneinfo tz = false := by
      simp [check_timezone_is_zoneinfo, h1]
    rw [hc]
    simp only [Bool.false_eq_true, false_iff]
    rintro ⟨a, b, rfl, hna, hb, hrest⟩
    have hsome : afterChar '/' (a ++ '/' :: b) = some b :=
      (afterChar_eq_some _ _ _).mpr ⟨a, rfl, hna⟩
    rw [h1] at hsome; exact Option.noConfusion hsome
  | some rest1 =>
    obtain ⟨a, rfl, hna⟩ := (afterChar_eq_some _ _ _).mp h1
    by_cases hr1 : rest1 = []
    · subst hr1
      have hc : check_timezone_is_zoneinfo (a ++ '/' :: []) = false := by
        simp [check_timezone_is_zoneinfo, h1]
      rw [hc]
      simp only [Bool.false_eq_true, false_iff]
      rintro ⟨a', b', heq, hna', hb', hrest⟩
      have hb'eq : afterChar '/' (a ++ '/' :: ([] : List Char)) = some b' := by
        rw [heq]; exact (afterChar_eq_some _ _ _).mpr ⟨a', rfl, hna'⟩
      rw [h1] at hb'eq
      exact hb' (Option.some.inj hb'eq).symm
    · cases h2 : afterChar '/' rest1 with
      | none =>
        have hc : check_timezone_is_zoneinfo (a ++ '/' :: rest1) = true := by
          simp [check_timezone_is_zoneinfo, h1, hr1, h2]
        rw [hc]
        simp only [true_iff]
        exact ⟨a, rest1, rfl, hna, hr1, Or.inl ((afterChar_eq_none _ _).mp h2)⟩
      | some rest2 =>
        have hmem1 : '/' ∈ rest1 := by
          by_contra hm
          rw [(afterChar_eq_none '/' rest1).mpr hm] at h2
          exact Option.noConfusion h2
        obtain ⟨p, hp, hnp⟩ := (afterChar_eq_some _ _ _).mp h2
        by_cases hr2 : rest2 = []
        · subst hr2
          have hc : check_timezone_is_zoneinfo (a ++ '/' :: rest1) = false := by
            simp [check_timezone_is_zoneinfo, h1, hr1, h2]
          rw [hc]
          simp only [Bool.false_eq_true, false_iff]
          rintro ⟨a', b', heq, hna', hb', hrest⟩
          have hb'eq : afterChar '/' (a ++ '/' :: rest1) = some b' := by
            rw [heq]; exact (afterChar_eq_some _ _ _).mpr ⟨a', rfl, hna'⟩
          rw [h1] at hb'eq
          obtain rfl : rest1 = b' := Option.some.inj hb'eq
          rcases hrest with hnone | ⟨c, d, hcd, hnc, hd, hnd⟩
          · exact hnone hmem1
          · have hsd : afterChar '/' rest1 = some d :=
              (afterChar_eq_some _ _ _).mpr ⟨c, hcd, hnc⟩
            rw [h2] at hsd
            exact hd (Option.some.inj hsd).symm
        · cases h3 : afterChar '/' rest2 with
          | none =>
            have hc : check_timezone_is_zoneinfo (a ++ '/' :: rest1) = true := by
              simp [check_timezone_is_zoneinfo, h1, hr1, h2, hr2, h3]
            rw [hc]
            simp only [true_iff]
            exact ⟨a, rest1, rfl, hna, hr1,
              Or.inr ⟨p, rest2, hp, hnp, hr2, (afterChar_eq_none _ _).mp h3⟩⟩
          | some rest3 =>
            have hc : check_timezone_is_zoneinfo (a ++ '/' :: rest1) = false := by
              simp [check_timezone_is_zoneinfo, h1, hr1, h2, hr2, h3]
            rw [hc]
            simp only [Bool.false_eq_true, false_iff]
            have hmem2 : '/' ∈ rest2 := by
              by_contra hm
              rw [(afterChar_eq_none '/' rest2).mpr hm] at h3
              exact Option.noConfusion h3
            rintro ⟨a', b', heq, hna', hb', hrest⟩
            have hb'eq : afterChar '/' (a ++ '/' :: rest1) = some b' := by
              rw [heq]; exact (afterChar_eq_some _ _ _).mpr ⟨a', rfl, hna'⟩
            rw [h1] at hb'eq
            obtain rfl : rest1 = b' := Option.some.inj hb'eq
            rcases hrest with hnone | ⟨c, d, hcd, hnc, hd, hnd⟩
            · exact hnone hmem1
            · have hsd : afterChar '/' rest1 = some d :=
                (afterChar_eq_some _ _ _).mpr ⟨c, hcd, hnc⟩
              rw [h2] at hsd
              obtain rfl : rest2 = d := Option.some.inj hsd
              exact hnd hmem2

/-! ## Claim C4 -/

theorem utcCompare_lt_zero (a b : Tm) :
    utcCompare a b < 0 ↔ lexLtTm a b := by
  unfold utcCompare lexLtTm
  omega

/-- `getTimeZoneDiff` in closed form: the daylight sum is returned exactly on
the half-open lexicographic window `[mStandardDateUtc, mDaylightDateUtc)`
(those fields hold the daylight-start and standard-start instants
respectively, in zdump parse order) when the daylight offset is non-zero. -/
theorem getTimeZoneDiff_eq (st : TZState) (utc : Tm) :
    getTimeZoneDiff st utc =
      if st.mDaylightOffset ≠ 0 ∧ ¬ lexLtTm utc st.mStandardDateUtc ∧
          lexLtTm utc st.mDaylightDateUtc
      then st.mStandardOffset + st.mDaylightOffset
      else st.mStandardOffset := by
  unfold getTimeZoneDiff getIsDaylightSavingTime
  by_cases hd : st.mDaylightOffset = 0
  · rw [if_pos hd, if_pos (by omega : (-1 : Int) ≤ 0),
      if_neg (by simp [hd])]
  · rw [if_neg hd]
    by_cases hw : utcCompare utc st.mStandardDateUtc < 0 ∨
        utcCompare utc st.mDaylightDateUtc ≥ 0
    · rw [if_pos hw, if_pos (by omega : (0 : Int) ≤ 0)]
      rcases hw with hw | hw
      · rw [if_neg]
        rintro ⟨-, hns, -⟩
        exact hns ((utcCompare_lt_zero _ _).mp hw)
      · rw [if_neg]
        rintro ⟨-, -, hlt⟩
        have := (utcCompare_lt_zero utc st.mDaylightDateUtc).mpr hlt
        omega
    · rw [if_neg hw, if_neg (by omega : ¬ (1 : Int) ≤ 0), if_pos]
      push_neg at hw
      refine ⟨hd, fun hlt => ?_, (utcCompare_lt_zero _ _).mp (by omega)⟩
      have := (utcCompare_lt_zero utc st.mStandardDateUtc).mpr hlt
      omega

/-- C4: for a rule with non-zero daylight offset, `get_offset` returns
`standard + daylight` exactly when the UTC instant lies in the half-open
daylight window under the strict lexicographic (year, month, day, hour,
minute, second) comparison, and `standard` alone outside it; for a rule with
zero daylight offset it returns `standard` alone for every instant, whatever
the (unconsulted) boundary fields hold. -/
theorem daylight_window_characterization (st : TZState) (utc : Tm) :
    (st.mDaylightOffset ≠ 0 →
      (getTimeZoneDiff st utc = st.mStandardOffset + st.mDaylightOffset ↔
        (¬ lexLtTm utc st.mStandardDateUtc ∧
          lexLtTm utc st.mDaylightDateUtc))) ∧
    (st.mDaylightOffset ≠ 0 →
      ¬(¬ lexLtTm utc st.mStandardDateUtc ∧
          lexLtTm utc st.mDaylightDateUtc) →
      getTimeZoneDiff st utc = st.mStandardOffset) ∧
    (st.mDaylightOffset = 0 →
      ∀ d1 d2 : Tm,
        getTimeZoneDiff
          ({ st with mStandardDateUtc := d1, mDaylightDateUtc := d2 })
          utc = st.mStandardOffset) := by
  refine ⟨?_, ?_, ?_⟩
  · intro hd
    rw [getTimeZoneDiff_eq]
    constructor
    · intro h
      by_contra hw
      rw [if_neg (fun hc => hw ⟨hc.2.1, hc.2.2⟩)] at h
      omega
    · intro hw
      rw [if_pos ⟨hd, hw.1, hw.2⟩]
  · intro hd hw
    rw [getTimeZoneDiff_eq, if_neg (fun hc => hw ⟨hc.2.1, hc.2.2⟩)]
  · intro hd d1 d2
    rw [getTimeZoneDiff_eq]
    simp [hd]

/-- Witness for C4 at the spec's end-to-end scenario 1: America/New_York
2024 (standard −18000 s, daylight +3600 s, window
`[2024-03-10T07:00:00Z, 2024-11-03T06:00:00Z)`); a query at
2024-07-01T00:00:00Z is inside the window, so the sum −14400 is returned. -/
theorem daylight_window_characterization_witness :
    getTimeZoneDiff
      ⟨⟨0, 0, 7, 10, 2, 124⟩, ⟨0, 0, 6, 3, 10, 124⟩, -18000, 3600,
        2024, true, "America/New_York"⟩
      ⟨0, 0, 0, 1, 6, 124⟩ = -18000 + 3600 :=
  ((daylight_window_characterization
      ⟨⟨0, 0, 7, 10, 2, 124⟩, ⟨0, 0, 6, 3, 10, 124⟩, -18000, 3600,
        2024, true, "America/New_York"⟩
      ⟨0, 0, 0, 1, 6, 124⟩).1 (by decide)).mpr (by decide)

/-! ## Engine lemmas for claims C1, C5, C6, C9 -/
theorem zdump_ok_preserves (env : ZdumpEnv) (st : TZState) (z : Int)
    (st' : TZState) (h : setAndroidTimeZoneUsingZdump env st = .ok (z, st')) :
    st'.mCurrentYear = st.mCurrentYear ∧
    st'.mTimeZoneName = st.mTimeZoneName ∧
    st'.mAndroidTimeZoneInit = st.mAndroidTimeZoneInit := by
  unfold setAndroidTimeZoneUsingZdump at h
  dsimp only at h
  split_ifs at h
  all_goals (repeat' split at h)
  all_goals
    first
      | exact Except.noConfusion h
      | (simp only [Except.ok.injEq, Prod.mk.injEq] at h
         obtain ⟨-, rfl⟩ := h
         simp)

theorem date_ok_preserves (env : DateEnv) (st : TZState) (d : Int)
    (st' : TZState) (h : setAndroidTimeZoneUsingDate env st = .ok (d, st')) :
    st'.mCurrentYear = st.mCurrentYear ∧
    st'.mTimeZoneName = st.mTimeZoneName ∧
    st'.mAndroidTimeZoneInit = st.mAndroidTimeZoneInit := by
  unfold setAndroidTimeZoneUsingDate at h
  dsimp only at h
  split_ifs at h
  all_goals (repeat' split at h)
  all_goals
    first
      | exact Except.noConfusion h
      | (simp only [Except.ok.injEq, Prod.mk.injEq] at h
         obtain ⟨-, rfl⟩ := h
         simp)

theorem date_ok_zero_daylight (env : DateEnv) (st : TZState)
    (st' : TZState) (h : setAndroidTimeZoneUsingDate env st = .ok (0, st')) :
    st'.mDaylightOffset = 0 := by
  unfold setAndroidTimeZoneUsingDate at h
  dsimp only at h
  split_ifs at h
  all_goals (repeat' split at h)
  all_goals
    first
      | exact Except.noConfusion h
      | (simp only [Except.ok.injEq, Prod.mk.injEq] at h
         obtain ⟨-, rfl⟩ := h
         simp)
      | (exfalso
         simp only [Except.ok.injEq, Prod.mk.injEq] at h
         omega)

theorem zdump_fail_shape (env : ZdumpEnv) (st : TZState)
    (h : ¬env.tempfileOk ∨ ¬env.ran ∨ env.exitCode ≠ 0 ∨
      env.lines.length ≠ 4) :
    setAndroidTimeZoneUsingZdump env st = .ok (-1, st) := by
  unfold setAndroidTimeZoneUsingZdump
  by_cases h1 : env.tempfileOk
  · rw [if_neg (by simpa using h1)]
    by_cases h2 : env.ran ∧ env.exitCode = 0
    · rw [if_pos h2]
      dsimp only
      rw [if_neg (by tauto)]
    · rw [if_neg h2]
  · rw [if_pos (by simpa using h1)]

theorem zdump_fail_month (env : ZdumpEnv) (st : TZState)
    (hlen : env.lines.length = 4)
    (hparse : parseZdumpDate
      (((tokenize (env.lines.getD 1 [])).drop 2).take 4) = .ok none) :
    setAndroidTimeZoneUsingZdump env st = .ok (-1, st) := by
  unfold setAndroidTimeZoneUsingZdump
  by_cases h1 : env.tempfileOk
  · rw [if_neg (by simpa using h1)]
    by_cases h2 : env.ran ∧ env.exitCode = 0
    · rw [if_pos h2]
      dsimp only
      rw [if_pos hlen, hparse]
    · rw [if_neg h2]
  · rw [if_pos (by simpa using h1)]

theorem zdump_parse_fail_sites (env : ZdumpEnv) (st : TZState)
    (htmp : env.tempfileOk = true) (hran : env.ran = true)
    (hexit : env.exitCode = 0) (hlen : env.lines.length = 4) :
    (parseZdumpDate (((tokenize (env.lines.getD 1 [])).drop 2).take 4) =
        .ok none →
      setAndroidTimeZoneUsingZdump env st = .ok (-1, st)) ∧
    (∀ d1,
      parseZdumpDate (((tokenize (env.lines.getD 1 [])).drop 2).take 4) =
        .ok (some d1) →
      parseZdumpDate (((tokenize (env.lines.getD 1 [])).drop 9).take 4) =
        .ok none →
      setAndroidTimeZoneUsingZdump env st =
        .ok (-1, { st with mStandardDateUtc := d1 })) ∧
    (∀ d1 l1,
      parseZdumpDate (((tokenize (env.lines.getD 1 [])).drop 2).take 4) =
        .ok (some d1) →
      parseZdumpDate (((tokenize (env.lines.getD 1 [])).drop 9).take 4) =
        .ok (some l1) →
      parseZdumpDate (((tokenize (env.lines.getD 3 [])).drop 2).take 4) =
        .ok none →
      setAndroidTimeZoneUsingZdump env st =
        .ok (-1, { st with mStandardDateUtc := d1 })) ∧
    (∀ d1 l1 d3,
      parseZdumpDate (((tokenize (env.lines.getD 1 [])).drop 2).take 4) =
        .ok (some d1) →
      parseZdumpDate (((tokenize (env.lines.getD 1 [])).drop 9).take 4) =
        .ok (some l1) →
      parseZdumpDate (((tokenize (env.lines.getD 3 [])).drop 2).take 4) =
        .ok (some d3) →
      parseZdumpDate (((tokenize (env.lines.getD 3 [])).drop 9).take 4) =
        .ok none →
      setAndroidTimeZoneUsingZdump env st =
        .ok (-1, { st with mStandardDateUtc := d1,
                           mDaylightDateUtc := d3 })) := by
  refine ⟨?_, ?_, ?_, ?_⟩
  · intro hp1
    unfold setAndroidTimeZoneUsingZdump
    rw [if_neg (by simpa using htmp), if_pos ⟨hran, hexit⟩]
    dsimp only
    rw [if_pos hlen, hp1]
  · intro d1 hp1 hp2
    unfold setAndroidTimeZoneUsingZdump
    rw [if_neg (by simpa using htmp), if_pos ⟨hran, hexit⟩]
    dsimp only
    rw [if_pos hlen, hp1]
    dsimp only
    rw [hp2]
  · intro d1 l1 hp1 hp2 hp3
    unfold setAndroidTimeZoneUsingZdump
    rw [if_neg (by simpa using htmp), if_pos ⟨hran, hexit⟩]
    dsimp only
    rw [if_pos hlen, hp1]
    dsimp only
    rw [hp2]
    dsimp only
    rw [hp3]
  · intro d1 l1 d3 hp1 hp2 hp3 hp4
    unfold setAndroidTimeZoneUsingZdump
    rw [if_neg (by simpa using htmp), if_pos ⟨hran, hexit⟩]
    dsimp only
    rw [if_pos hlen, hp1]
    dsimp only
    rw [hp2]
    dsimp only
    rw [hp3]
    dsimp only
    rw [hp4]

theorem zdump_stoi_exception_sites (env : ZdumpEnv) (st : TZState)
    (htmp : env.tempfileOk = true) (hran : env.ran = true)
    (hexit : env.exitCode = 0) (hlen : env.lines.length = 4) :
    (parseZdumpDate (((tokenize (env.lines.getD 1 [])).drop 2).take 4) =
        .error () →
      setAndroidTimeZoneUsingZdump env st = .error ()) ∧
    (∀ d1,
      parseZdumpDate (((tokenize (env.lines.getD 1 [])).drop 2).take 4) =
        .ok (some d1) →
      parseZdumpDate (((tokenize (env.lines.getD 1 [])).drop 9).take 4) =
        .error () →
      setAndroidTimeZoneUsingZdump env st = .error ()) ∧
    (∀ d1 l1,
      parseZdumpDate (((tokenize (env.lines.getD 1 [])).drop 2).take 4) =
        .ok (some d1) →
      parseZdumpDate (((tokenize (env.lines.getD 1 [])).drop 9).take 4) =
        .ok (some l1) →
      parseZdumpDate (((tokenize (env.lines.getD 3 [])).drop 2).take 4) =
        .error () →
      setAndroidTimeZoneUsingZdump env st = .error ()) ∧
    (∀ d1 l1 d3,
      parseZdumpDate (((tokenize (env.lines.getD 1 [])).drop 2).take 4) =
        .ok (some d1) →
      parseZdumpDate (((tokenize (env.lines.getD 1 [])).drop 9).take 4) =
        .ok (some l1) →
      parseZdumpDate (((tokenize (env.lines.getD 3 [])).drop 2).take 4) =
        .ok (some d3) →
      parseZdumpDate (((tokenize (env.lines.getD 3 [])).drop 9).take 4) =
        .error () →
      setAndroidTimeZoneUsingZdump env st = .error ()) := by
  refine ⟨?_, ?_, ?_, ?_⟩
  · intro hp1
    unfold setAndroidTimeZoneUsingZdump
    rw [if_neg (by simpa using htmp), if_pos ⟨hran, hexit⟩]
    dsimp only
    rw [if_pos hlen, hp1]
  · intro d1 hp1 hp2
    unfold setAndroidTimeZoneUsingZdump
    rw [if_neg (by simpa using htmp), if_pos ⟨hran, hexit⟩]
    dsimp only
    rw [if_pos hlen, hp1]
    dsimp only
    rw [hp2]
  · intro d1 l1 hp1 hp2 hp3
    unfold setAndroidTimeZoneUsingZdump
    rw [if_neg (by simpa using htmp), if_pos ⟨hran, hexit⟩]
    dsimp only
    rw [if_pos hlen, hp1]
    dsimp only
    rw [hp2]
    dsimp only
    rw [hp3]
  · intro d1 l1 d3 hp1 hp2 hp3 hp4
    unfold setAndroidTimeZoneUsingZdump
    rw [if_neg (by simpa using htmp), if_pos ⟨hran, hexit⟩]
    dsimp only
    rw [if_pos hlen, hp1]
    dsimp only
    rw [hp2]
    dsimp only
    rw [hp3]
    dsimp only
    rw [hp4]

theorem setUnixI_zdump_success (tzname : String) (env : UnixEnv)
    (st st1 : TZState)
    (hz : setAndroidTimeZoneUsingZdump env.zdump
      { st with mTimeZoneName := tzname, mAndroidTimeZoneInit := false }
      = .ok (0, st1)) :
    androidTimeZoneSetUnixI tzname env st =
      .ok (0, { st1 with mAndroidTimeZoneInit := true }, false) := by
  unfold androidTimeZoneSetUnixI
  dsimp only
  rw [hz]
  dsimp only
  rw [if_neg (by omega : ¬ (0 : Int) ≠ 0)]

theorem setUnixI_zdump_failure (tzname : String) (env : UnixEnv)
    (st st1 st2 : TZState) (z d : Int) (hz0 : z ≠ 0)
    (hz : setAndroidTimeZoneUsingZdump env.zdump
      { st with mTimeZoneName := tzname, mAndroidTimeZoneInit := false }
      = .ok (z, st1))
    (hd : setAndroidTimeZoneUsingDate env.date st1 = .ok (d, st2)) :
    androidTimeZoneSetUnixI tzname env st =
      if d = 0 then .ok (0, { st2 with mAndroidTimeZoneInit := true }, true)
      else .ok (-1, st2, true) := by
  unfold androidTimeZoneSetUnixI
  dsimp only
  rw [hz]
  dsimp only
  rw [if_pos hz0, hd]
  dsimp only
  by_cases hd0 : d = 0
  · rw [if_neg (by omega), if_pos hd0]
  · rw [if_pos hd0, if_neg hd0]

theorem setUnix_ok_fields (tzname : String) (env : UnixEnv)
    (st : TZState) (r : Int) (st' : TZState)
    (h : androidTimeZoneSetUnix tzname env st = .ok (r, st')) :
    st'.mCurrentYear = st.mCurrentYear ∧
    st'.mTimeZoneName = tzname ∧
    (st'.mAndroidTimeZoneInit = true ↔ r = 0) := by
  unfold androidTimeZoneSetUnix androidTimeZoneSetUnixI at h
  dsimp only at h
  cases hz : setAndroidTimeZoneUsingZdump env.zdump
      { st with mTimeZoneName := tzname, mAndroidTimeZoneInit := false } with
  | error e =>
    rw [hz] at h
    exact Except.noConfusion h
  | ok p =>
    obtain ⟨z, st1⟩ := p
    rw [hz] at h
    dsimp only at h
    have hp1 := zdump_ok_preserves _ _ _ _ hz
    by_cases hz0 : z ≠ 0
    · rw [if_pos hz0] at h
      cases hd : setAndroidTimeZoneUsingDate env.date st1 with
      | error e =>
        rw [hd] at h
        exact Except.noConfusion h
      | ok q =>
        obtain ⟨d, st2⟩ := q
        rw [hd] at h
        dsimp only at h
        have hp2 := date_ok_preserves _ _ _ _ hd
        by_cases hd0 : d ≠ 0
        · rw [if_pos hd0] at h
          simp only [Except.map, Except.ok.injEq, Prod.mk.injEq] at h
          obtain ⟨rfl, rfl⟩ := h
          refine ⟨by simp [hp2.1, hp1.1], by simp [hp2.2.1, hp1.2.1], ?_⟩
          rw [hp2.2.2, hp1.2.2]
          simp
        · rw [if_neg hd0] at h
          simp only [Except.map, Except.ok.injEq, Prod.mk.injEq] at h
          obtain ⟨rfl, rfl⟩ := h
          refine ⟨by simp [hp2.1, hp1.1], by simp [hp2.2.1, hp1.2.1], by simp⟩
    · rw [if_neg hz0] at h
      simp only [Except.map, Except.ok.injEq, Prod.mk.injEq] at h
      obtain ⟨rfl, rfl⟩ := h
      refine ⟨by simp [hp1.1], by simp [hp1.2.1], by simp⟩

/-- C6: with a resolved engine, a query whose instant is in the stored
resolved year answers from the stored rule, leaves the state unchanged and
invokes the Transition-Rule Resolver (`androidTimeZoneSet`) zero times — so
an immediately repeated identical query returns the identical result; a
query whose instant's year differs invokes the resolver exactly once (the
stored year having been updated first), and repeating that query performs no
further re-resolution. -/
theorem resolver_call_counting (env : UnixEnv) (host : Host) (t : Int)
    (st : TZState) :
    (st.mAndroidTimeZoneInit = true →
      (host.gmtime t).tm_year + 1900 = st.mCurrentYear →
      androidTimeZoneOffsetC env host t st =
        .ok (getTimeZoneDiff st (host.gmtime t), st, 0)) ∧
    (st.mAndroidTimeZoneInit = true →
      (host.gmtime t).tm_year + 1900 ≠ st.mCurrentYear →
      ∀ v st' n, androidTimeZoneOffsetC env host t st = .ok (v, st', n) →
        n = 1 ∧
        ∀ v2 st2 n2,
          androidTimeZoneOffsetC env host t st' = .ok (v2, st2, n2) →
            n2 = 0) := by
  constructor
  · intro hinit hyear
    unfold androidTimeZoneOffsetC
    rw [if_pos hinit, if_neg (fun hc => hc hyear)]
  · intro hinit hyear v st' n h
    unfold androidTimeZoneOffsetC at h
    rw [if_pos hinit, if_pos hyear] at h
    dsimp only at h
    cases hset : androidTimeZoneSetUnix st.mTimeZoneName env
        { st with mCurrentYear := (host.gmtime t).tm_year + 1900 } with
    | error e =>
      rw [hset] at h
      exact Except.noConfusion h
    | ok p =>
      obtain ⟨r, st''⟩ := p
      rw [hset] at h
      dsimp only at h
      simp only [Except.ok.injEq, Prod.mk.injEq] at h
      obtain ⟨-, rfl, rfl⟩ := h
      refine ⟨rfl, ?_⟩
      intro v2 st2 n2 h2c
      have hf := setUnix_ok_fields _ _ _ _ _ hset
      have hyr : st''.mCurrentYear = (host.gmtime t).tm_year + 1900 := by
        rw [hf.1]
      unfold androidTimeZoneOffsetC at h2c
      by_cases hi : st''.mAndroidTimeZoneInit = true
      · rw [if_pos hi, if_neg (fun hc => hc hyr.symm)] at h2c
        simp only [Except.ok.injEq, Prod.mk.injEq] at h2c
        omega
      · rw [if_neg hi] at h2c
        simp only [Except.ok.injEq, Prod.mk.injEq] at h2c
        omega

/-- C1 (amended): for a resolved engine, when a `get_offset` query's year
differs from the stored resolved year and the triggered re-resolution with
the stored zone name fails, the value returned for that call is
`getTimeZoneDiff` applied to the stored (possibly partially updated)
transition rule — not the host fallback offset; the engine is left
uninitialized, so only subsequent calls fall back to the host conversion. -/
theorem rollover_failure_uses_stored_rule (env : UnixEnv) (host : Host)
    (t : Int) (st stf : TZState)
    (hinit : st.mAndroidTimeZoneInit = true)
    (hyear : (host.gmtime t).tm_year + 1900 ≠ st.mCurrentYear)
    (hfail : androidTimeZoneSetUnix st.mTimeZoneName env
      { st with mCurrentYear := (host.gmtime t).tm_year + 1900 }
      = .ok (-1, stf)) :
    androidTimeZoneOffset env host t st =
      .ok (getTimeZoneDiff stf (host.gmtime t), stf) ∧
    stf.mAndroidTimeZoneInit = false := by
  have hf := setUnix_ok_fields _ _ _ _ _ hfail
  have hini : stf.mAndroidTimeZoneInit = false := by
    cases hflag : stf.mAndroidTimeZoneInit with
    | false => rfl
    | true => exact absurd (hf.2.2.mp hflag) (by omega)
  refine ⟨?_, hini⟩
  unfold androidTimeZoneOffset androidTimeZoneOffsetC
  rw [if_pos hinit, if_pos hyear]
  dsimp only
  rw [hfail]
  rfl

/-- C5 (amended): when the candidate name fails the zone-name validator,
`timezone_set` returns failure and leaves the engine state unchanged — which
means a previously resolved rule (if any) stays active, contrary to the
second half of the claim; when the name validates but resolution fails,
`timezone_set` returns failure and the engine is left unresolved
(host-fallback), not keeping the previous rule active. -/
theorem timezone_set_failure_behavior :
    (∀ (env : UnixEnv) (g : Globals) (st : TZState) (name : String),
      check_timezone_is_zoneinfo name.toList = false →
      timezone_set name env g st =
        .ok (-1, { g with android_timezone_init := false }, st)) ∧
    (∀ (env : UnixEnv) (g : Globals) (st stf : TZState) (name : String),
      check_timezone_is_zoneinfo name.toList = true →
      name.toList.length ≤ 255 →
      androidTimeZoneSetUnix name env st = .ok (-1, stf) →
      timezone_set name env g st =
        .ok (-1,
          { g with android_timezone_init := false,
                   android_timezone0 := name.toList,
                   android_timezone := some name.toList },
          stf) ∧
      stf.mAndroidTimeZoneInit = false) := by
  constructor
  · intro env g st name hbad
    unfold timezone_set
    rw [if_pos (by simpa using hbad)]
  · intro env g st stf name hok hlen hfail
    have hf := setUnix_ok_fields _ _ _ _ _ hfail
    have hini : stf.mAndroidTimeZoneInit = false := by
      cases hflag : stf.mAndroidTimeZoneInit with
      | false => rfl
      | true => exact absurd (hf.2.2.mp hflag) (by omega)
    refine ⟨?_, hini⟩
    unfold timezone_set
    rw [if_neg (by simpa using hok), if_neg (by simpa using hlen)]
    dsimp only
    rw [hfail]
    dsimp only
    rw [if_pos (by omega : (-1 : Int) ≠ 0)]

/-- C9 (amended): on Unix hosts the zdump strategy runs first and the
date-based fixed-offset strategy runs only if zdump fails (conjuncts 1-2,
where the final flag records whether the date strategy was invoked); the
zdump strategy returns failure (-1) whenever the temp file could not be
created, the command did not run, it exited non-zero or the captured output
does not have exactly four lines (conjunct 3), and likewise whenever any of
the four per-line date-parse sites rejects its tokens — fewer than four
tokens or an unrecognized month name — keeping only the fields parsed before
the rejection (conjunct 4); however, contrary to the claim as stated, a
malformed numeric token at any parse site makes `std::stoi` throw, so the
strategy propagates an exception instead of returning failure (conjunct 5);
and whenever the date fallback succeeds, the stored rule has daylight offset
zero (conjunct 6). -/
theorem unix_resolution_strategy_contract :
    (∀ (tzname : String) (env : UnixEnv) (st st1 : TZState),
      setAndroidTimeZoneUsingZdump env.zdump
        { st with mTimeZoneName := tzname, mAndroidTimeZoneInit := false }
        = .ok (0, st1) →
      androidTimeZoneSetUnixI tzname env st =
        .ok (0, { st1 with mAndroidTimeZoneInit := true }, false)) ∧
    (∀ (tzname : String) (env : UnixEnv) (st st1 st2 : TZState) (z d : Int),
      z ≠ 0 →
      setAndroidTimeZoneUsingZdump env.zdump
        { st with mTimeZoneName := tzname, mAndroidTimeZoneInit := false }
        = .ok (z, st1) →
      setAndroidTimeZoneUsingDate env.date st1 = .ok (d, st2) →
      androidTimeZoneSetUnixI tzname env st =
        if d = 0 then
          .ok (0, { st2 with mAndroidTimeZoneInit := true }, true)
        else .ok (-1, st2, true)) ∧
    (∀ (env : ZdumpEnv) (st : TZState),
      ¬env.tempfileOk ∨ ¬env.ran ∨ env.exitCode ≠ 0 ∨
          env.lines.length ≠ 4 →
      setAndroidTimeZoneUsingZdump env st = .ok (-1, st)) ∧
    (∀ (env : ZdumpEnv) (st : TZState),
      env.tempfileOk = true → env.ran = true → env.exitCode = 0 →
      env.lines.length = 4 →
      (parseZdumpDate (((tokenize (env.lines.getD 1 [])).drop 2).take 4) =
          .ok none →
        setAndroidTimeZoneUsingZdump env st = .ok (-1, st)) ∧
      (∀ d1,
        parseZdumpDate (((tokenize (env.lines.getD 1 [])).drop 2).take 4) =
          .ok (some d1) →
        parseZdumpDate (((tokenize (env.lines.getD 1 [])).drop 9).take 4) =
          .ok none →
        setAndroidTimeZoneUsingZdump env st =
          .ok (-1, { st with mStandardDateUtc := d1 })) ∧
      (∀ d1 l1,
        parseZdumpDate (((tokenize (env.lines.getD 1 [])).drop 2).take 4) =
          .ok (some d1) →
        parseZdumpDate (((tokenize (env.lines.getD 1 [])).drop 9).take 4) =
          .ok (some l1) →
        parseZdumpDate (((tokenize (env.lines.getD 3 [])).drop 2).take 4) =
          .ok none →
        setAndroidTimeZoneUsingZdump env st =
          .ok (-1, { st with mStandardDateUtc := d1 })) ∧
      (∀ d1 l1 d3,
        parseZdumpDate (((tokenize (env.lines.getD 1 [])).drop 2).take 4) =
          .ok (some d1) →
        parseZdumpDate (((tokenize (env.lines.getD 1 [])).drop 9).take 4) =
          .ok (some l1) →
        parseZdumpDate (((tokenize (env.lines.getD 3 [])).drop 2).take 4) =
          .ok (some d3) →
        parseZdumpDate (((tokenize (env.lines.getD 3 [])).drop 9).take 4) =
          .ok none →
        setAndroidTimeZoneUsingZdump env st =
          .ok (-1, { st with mStandardDateUtc := d1,
                             mDaylightDateUtc := d3 }))) ∧
    (∀ (env : ZdumpEnv) (st : TZState),
      env.tempfileOk = true → env.ran = true → env.exitCode = 0 →
      env.lines.length = 4 →
      (parseZdumpDate (((tokenize (env.lines.getD 1 [])).drop 2).take 4) =
          .error () →
        setAndroidTimeZoneUsingZdump env st = .error ()) ∧
      (∀ d1,
        parseZdumpDate (((tokenize (env.lines.getD 1 [])).drop 2).take 4) =
          .ok (some d1) →
        parseZdumpDate (((tokenize (env.lines.getD 1 [])).drop 9).take 4) =
          .error () →
        setAndroidTimeZoneUsingZdump env st = .error ()) ∧
      (∀ d1 l1,
        parseZdumpDate (((tokenize (env.lines.getD 1 [])).drop 2).take 4) =
          .ok (some d1) →
        parseZdumpDate (((tokenize (env.lines.getD 1 [])).drop 9).take 4) =
          .ok (some l1) →
        parseZdumpDate (((tokenize (env.lines.getD 3 [])).drop 2).take 4) =
          .error () →
        setAndroidTimeZoneUsingZdump env st = .error ()) ∧
      (∀ d1 l1 d3,
        parseZdumpDate (((tokenize (env.lines.getD 1 [])).drop 2).take 4) =
          .ok (some d1) →
        parseZdumpDate (((tokenize (env.lines.getD 1 [])).drop 9).take 4) =
          .ok (some l1) →
        parseZdumpDate (((tokenize (env.lines.getD 3 [])).drop 2).take 4) =
          .ok (some d3) →
        parseZdumpDate (((tokenize (env.lines.getD 3 [])).drop 9).take 4) =
          .error () →
        setAndroidTimeZoneUsingZdump env st = .error ())) ∧
    (∀ (env : DateEnv) (st st' : TZState),
      setAndroidTimeZoneUsingDate env st = .ok (0, st') →
      st'.mDaylightOffset = 0) :=
  ⟨setUnixI_zdump_success, fun tz env st st1 st2 z d hz0 hz hd =>
      setUnixI_zdump_failure tz env st st1 st2 z d hz0 hz hd,
    zdump_fail_shape, zdump_parse_fail_sites, zdump_stoi_exception_sites,
    date_ok_zero_daylight⟩

/-- Counterexample to C9 as stated: a captured output with the expected four
lines whose second line carries a recognized month name but a non-numeric
day token.  The claim says the strategy "fails (returns failure without
producing a rule)" on such a token-shape violation, yet `std::stoi` throws
and nothing catches it: the strategy evaluates to the exception outcome
`.error ()`, not to a failure return. -/
theorem zdump_token_shape_counterexample :
    envZdumpBadToken.ran = true ∧ envZdumpBadToken.exitCode = 0 ∧
    envZdumpBadToken.lines.length = 4 ∧
    setAndroidTimeZoneUsingZdump envZdumpBadToken stC1 = .error () :=
  ⟨rfl, rfl, rfl, rfl⟩

/-- Counterexample to C1 as stated: a resolved engine (standard offset
100 s, resolved year 2023) queried for an instant in 2024 in a world where
re-resolution fails returns 100 — the `getTimeZoneDiff` value of the stored
rule — while the host's own local-minus-UTC offset for that instant is 0, so
the call does not degrade to host fallback. -/
theorem hostfallback_counterexample :
    (androidTimeZoneOffset envFailBoth hostFix 0 stC1).map (fun r => r.1) =
      .ok 100 ∧
    diffTime (hostFix.localtime 0) (hostFix.gmtime 0) = 0 ∧
    (100 : Int) ≠ 0 := by
  refine ⟨rfl, rfl, by decide⟩

/-- Witness for C1 (amended) at the concrete failing world: the 2024 query
against the 2023 engine returns the stale-rule offset and disables the init
flag. -/
theorem rollover_failure_uses_stored_rule_witness :
    androidTimeZoneOffset envFailBoth hostFix 0 stC1 =
      .ok (getTimeZoneDiff stAfterFail (hostFix.gmtime 0), stAfterFail) ∧
    stAfterFail.mAndroidTimeZoneInit = false :=
  rollover_failure_uses_stored_rule envFailBoth hostFix 0 stC1 stAfterFail
    rfl (by decide) rfl

/-- Counterexample to C5 as stated: with a resolved engine (`stC1`, init
flag set), `timezone_set "Not_A_Zone"` fails with -1 and returns the engine
state bit-for-bit unchanged — still initialized and still holding the
previous valid rule as the active resolved state, contradicting the claim
that no previous valid rule is kept active after a validation failure. -/
theorem timezone_set_counterexample :
    (timezone_set "Not_A_Zone" envFailBoth gFix stC1).map
        (fun r => (r.1, r.2.2)) = .ok (-1, stC1) ∧
    stC1.mAndroidTimeZoneInit = true := ⟨rfl, rfl⟩

/-- Witness for C5 (amended): `timezone_set` with an invalid name returns
failure and the untouched engine state. -/
theorem timezone_set_failure_behavior_witness :
    timezone_set "Not_A_Zone" envFailBoth gFix stC1 =
      .ok (-1, { gFix with android_timezone_init := false }, stC1) :=
  timezone_set_failure_behavior.1 envFailBoth gFix stC1 "Not_A_Zone" rfl

/-- Witness for C6: a same-year query on a resolved engine returns the
stored-rule offset with zero resolver invocations. -/
theorem resolver_call_counting_witness :
    androidTimeZoneOffsetC envFailBoth hostFix 0
      ({ stC1 with mCurrentYear := 2024 }) =
      .ok (getTimeZoneDiff ({ stC1 with mCurrentYear := 2024 })
        (hostFix.gmtime 0), { stC1 with mCurrentYear := 2024 }, 0) :=
  (resolver_call_counting envFailBoth hostFix 0
    ({ stC1 with mCurrentYear := 2024 })).1 rfl (by decide)

/-- Witness for C9 (amended): a zdump invocation whose temp file cannot be
created fails leaving the state unchanged; a four-line output whose second
line has an unrecognized month name fails cleanly with the state unchanged;
and a date run printing `+0530` yields a rule with daylight offset zero. -/
theorem unix_resolution_strategy_contract_witness :
    setAndroidTimeZoneUsingZdump ⟨false, false, 0, []⟩ stC1 =
      .ok (-1, stC1) ∧
    setAndroidTimeZoneUsingZdump envZdumpBadMonth stC1 = .ok (-1, stC1) ∧
    ({ stC1 with mStandardOffset := 19800, mDaylightOffset := 0 }
      : TZState).mDaylightOffset = 0 :=
  ⟨unix_resolution_strategy_contract.2.2.1 ⟨false, false, 0, []⟩ stC1
      (Or.inl (by decide)),
    (unix_resolution_strategy_contract.2.2.2.1 envZdumpBadMonth stC1
      rfl rfl rfl rfl).1 rfl,
    unix_resolution_strategy_contract.2.2.2.2.2 envDateOk stC1
      ({ stC1 with mStandardOffset := 19800, mDaylightOffset := 0 }) rfl⟩

/-- C3: the copy-paste slip in the Windows registry branch, evaluated at a
concrete registry record with non-zero daylight bias and two distinct
transition descriptors: resolution succeeds (returns 0), yet the engine's
standard-transition field ends up holding the parsed *daylight* descriptor
(the second `parseSystemTime` call overwrites the first) and the daylight
field is left untouched, even though the two descriptors parse to different
instants. -/
theorem registry_daylight_date_slip :
    (androidTimeZoneSetWin "America/New_York" winEnvFix stC1).1 = 0 ∧
    (androidTimeZoneSetWin "America/New_York" winEnvFix stC1).2.mStandardDateUtc
      = parseSystemTime regEastern.DaylightDate ∧
    (androidTimeZoneSetWin "America/New_York" winEnvFix stC1).2.mDaylightDateUtc
      = stC1.mDaylightDateUtc ∧
    parseSystemTime regEastern.StandardDate ≠
      parseSystemTime regEastern.DaylightDate := by
  refine ⟨rfl, rfl, rfl, by decide⟩

/-! ## Calendar lemmas and claim C8 -/

theorem doy_nonneg (l : Bool) (m : Int) (h1 : 0 ≤ m) (h2 : m ≤ 11) :
    0 ≤ doyBefore l m := by
  cases l <;> interval_cases m <;> norm_num [doyBefore]

theorem doy_mono_add (l : Bool) (m1 m2 : Int) (h1 : 0 ≤ m1) (h2 : m1 < m2)
    (h3 : m2 ≤ 11) :
    doyBefore l m1 + daysInMonth l m1 ≤ doyBefore l m2 := by
  have h4 : m1 ≤ 10 := by omega
  cases l <;> interval_cases m1 <;> interval_cases m2 <;>
    norm_num [doyBefore, daysInMonth]

theorem doy_le (l : Bool) (m : Int) (h1 : 0 ≤ m) (h2 : m ≤ 11) :
    doyBefore l m + daysInMonth l m ≤ 365 + (if l then 1 else 0) := by
  cases l <;> interval_cases m <;> norm_num [doyBefore, daysInMonth]

theorem leapsBefore_succ (y : Int) :
    leapsBefore (y + 1) = leapsBefore y + (if isLeap y then 1 else 0) := by
  unfold leapsBefore isLeap
  simp only [decide_eq_true_eq]
  split_ifs with h <;> omega

theorem yearStart_mono (a b : Int) (h : a ≤ b) :
    365 * a + leapsBefore a ≤ 365 * b + leapsBefore b := by
  unfold leapsBefore
  omega

theorem toDays_same_month (e b : Tm) (hy : e.tm_year = b.tm_year)
    (hm : e.tm_mon = b.tm_mon) :
    toDays e - toDays b = e.tm_mday - b.tm_mday := by
  unfold toDays
  rw [hy, hm]
  ring

theorem toDays_cross_month (e b : Tm) (he : ValidTm e) (hb : ValidTm b)
    (hy : e.tm_year = b.tm_year) (hm : b.tm_mon < e.tm_mon) :
    toDays b + 1 ≤ toDays e := by
  obtain ⟨hm1e, hm2e, hd1e, hd2e, -⟩ := he
  obtain ⟨hm1b, hm2b, hd1b, hd2b, -⟩ := hb
  have hmono := doy_mono_add (isLeap (b.tm_year + 1900)) b.tm_mon e.tm_mon
    hm1b hm hm2e
  unfold toDays
  rw [hy]
  omega

theorem toDays_cross_year (e b : Tm) (he : ValidTm e) (hb : ValidTm b)
    (hy : b.tm_year < e.tm_year) :
    toDays b + 1 ≤ toDays e := by
  obtain ⟨hm1e, hm2e, hd1e, hd2e, -⟩ := he
  obtain ⟨hm1b, hm2b, hd1b, hd2b, -⟩ := hb
  have h1 := doy_nonneg (isLeap (e.tm_year + 1900)) e.tm_mon hm1e hm2e
  have h2 := doy_le (isLeap (b.tm_year + 1900)) b.tm_mon hm1b hm2b
  have h3 := yearStart_mono (b.tm_year + 1900 + 1) (e.tm_year + 1900)
    (by omega)
  have h4 := leapsBefore_succ (b.tm_year + 1900)
  unfold toDays
  omega

theorem todSecs_bounds (t : Tm) (h : ValidTm t) :
    0 ≤ todSecs t ∧ todSecs t < 86400 := by
  obtain ⟨-, -, -, -, h5, h6, h7, h8, h9, h10⟩ := h
  unfold todSecs
  omega

/-- C8: for well-formed civil instants whose true difference as UTC
timestamps (per the proleptic-Gregorian reference `toSecs`) is strictly less
than 24 hours in magnitude, `diffTime` returns exactly that signed
difference in seconds, including across day, month and year boundaries. -/
theorem diffTime_exact (e b : Tm) (he : ValidTm e) (hb : ValidTm b)
    (h1 : toSecs e - toSecs b < 86400) (h2 : toSecs b - toSecs e < 86400) :
    diffTime e b = toSecs e - toSecs b := by
  have hte := todSecs_bounds e he
  have htb := todSecs_bounds b hb
  have hsecE : toSecs e = 86400 * toDays e + todSecs e := rfl
  have hsecB : toSecs b = 86400 * toDays b + todSecs b := rfl
  have hdd : -1 ≤ toDays e - toDays b ∧ toDays e - toDays b ≤ 1 := by
    omega
  have htodE : todSecs e = e.tm_sec + 60 * (e.tm_min + 60 * e.tm_hour) := rfl
  have htodB : todSecs b = b.tm_sec + 60 * (b.tm_min + 60 * b.tm_hour) := rfl
  rcases lt_trichotomy e.tm_year b.tm_year with hy | hy | hy
  · -- end year strictly before beginning year: one day back
    have hcross := toDays_cross_year b e hb he hy
    unfold diffTime kSecondsPerDay
    dsimp only
    rw [if_neg (by omega), if_pos hy]
    omega
  · -- same year
    rcases lt_trichotomy e.tm_mon b.tm_mon with hm | hm | hm
    · have hcross := toDays_cross_month b e hb he hy.symm hm
      unfold diffTime kSecondsPerDay
      dsimp only
      rw [if_neg (by omega), if_neg (by omega), if_neg (by omega),
        if_pos hm]
      omega
    · have hsame := toDays_same_month e b hy hm
      unfold diffTime kSecondsPerDay
      dsimp only
      rw [if_neg (by omega), if_neg (by omega), if_neg (by omega),
        if_neg (by omega)]
      omega
    · have hcross := toDays_cross_month e b he hb hy hm
      unfold diffTime kSecondsPerDay
      dsimp only
      rw [if_neg (by omega), if_neg (by omega), if_pos hm]
      omega
  · have hcross := toDays_cross_year e b he hb hy
    unfold diffTime kSecondsPerDay
    dsimp only
    rw [if_pos hy]
    omega

/-- Witness for C8: 2024-01-01T00:00:30 minus 2023-12-31T23:59:50 is 40
seconds across a year boundary, and `diffTime` returns exactly 40. -/
theorem diffTime_exact_witness :
    ValidTm tmC8e ∧ ValidTm tmC8b ∧
    toSecs tmC8e - toSecs tmC8b < 86400 ∧
    toSecs tmC8b - toSecs tmC8e < 86400 ∧
    diffTime tmC8e tmC8b = toSecs tmC8e - toSecs tmC8b :=
  ⟨by decide, by decide, by decide, by decide,
    diffTime_exact tmC8e tmC8b (by decide) (by decide) (by decide)
      (by decide)⟩
